import Mathlib

/-!
Shallow embedding of the Terminal Coder orchestration core
(`src/tc/...`) and proofs about its behaviour.

Conventions of the embedding:
* SQLite rows become Lean structures; a table is a `List` in rowid
  (insertion) order.
* `datetime('now')` / server-assigned timestamps are modelled by an
  explicit `now : Int` argument to every mutating operation.
* Python exceptions become `Except PyErr`.
* Python string slicing `s[:n]` becomes `String.take`.
* `uuid.uuid4()` draws are modelled as explicit `String` arguments
  (or a counter), since they are external nondeterminism.
-/

namespace TC

/-- Python exceptions that the modelled code can raise. -/
inductive PyErr where
  | value_error (msg : String)
  | index_error
  | tool_error (msg : String)
  | invalid_transition (entity_type current target : String)
deriving DecidableEq, Repr

/-- Python `max(iterable, default=d)`: `d` only when the list is empty,
otherwise the maximum of the elements. -/
def pymax (xs : List Int) (d : Int) : Int :=
  match xs with
  | [] => d
  | x :: rest => rest.foldl max x

/-- Python list indexing `l[i]`: negative indices count from the end,
out-of-range raises `IndexError` (here: `none`). -/
def pyGet {α : Type} (l : List α) (i : Int) : Option α :=
  let j : Int := if i < 0 then i + l.length else i
  if h : 0 ≤ j ∧ j < l.length then
    some (l.get ⟨j.toNat, by
      have h2 := h.2
      omega⟩)
  else none

/-- Python `str.lower()` (character-by-character) over the string data. -/
def lowerStr (s : String) : String := ⟨s.data.map Char.toLower⟩

/-- Python `pat in s` substring test: `pat` is a prefix of some suffix. -/
def strContains (s pat : String) : Bool :=
  (List.range (s.data.length + 1)).any (fun i => pat.data.isPrefixOf (s.data.drop i))

/-- Insert into a list sorted by an `Int` key, keeping stability. -/
def insertByKey {α : Type} (key : α → Int) (x : α) : List α → List α
  | [] => [x]
  | y :: ys => if key x ≤ key y then x :: y :: ys else y :: insertByKey key x ys

/-- Stable insertion sort by an `Int` key; models SQL `ORDER BY key`. -/
def sortByKey {α : Type} (key : α → Int) : List α → List α
  | [] => []
  | x :: xs => insertByKey key x (sortByKey key xs)

theorem mem_insertByKey {α : Type} (key : α → Int) (x : α) (l : List α) (a : α) :
    a ∈ insertByKey key x l ↔ a = x ∨ a ∈ l := by
  induction l with
  | nil => simp [insertByKey]
  | cons y ys ih =>
      by_cases h : key x ≤ key y
      · simp [insertByKey, h]
      · simp [insertByKey, h, ih]
        tauto

theorem perm_insertByKey {α : Type} (key : α → Int) (x : α) (l : List α) :
    List.Perm (insertByKey key x l) (x :: l) := by
  induction l with
  | nil => simp [insertByKey]
  | cons y ys ih =>
      by_cases h : key x ≤ key y
      · simp [insertByKey, h]
      · simp only [insertByKey, h, if_false]
        exact List.Perm.trans (List.Perm.cons y ih) (List.Perm.swap x y ys)

theorem perm_sortByKey {α : Type} (key : α → Int) (l : List α) :
    List.Perm (sortByKey key l) l := by
  induction l with
  | nil => simp [sortByKey]
  | cons x xs ih =>
      exact List.Perm.trans (perm_insertByKey key x _) (List.Perm.cons x ih)

theorem mem_sortByKey {α : Type} (key : α → Int) (l : List α) (a : α) :
    a ∈ sortByKey key l ↔ a ∈ l :=
  (perm_sortByKey key l).mem_iff

theorem pairwise_insertByKey {α : Type} (key : α → Int) (x : α) (l : List α)
    (h : l.Pairwise (fun a b => key a ≤ key b)) :
    (insertByKey key x l).Pairwise (fun a b => key a ≤ key b) := by
  induction l with
  | nil => simp [insertByKey]
  | cons y ys ih =>
      rcases List.pairwise_cons.mp h with ⟨hy, hys⟩
      by_cases hxy : key x ≤ key y
      · simp only [insertByKey, hxy, if_true]
        refine List.pairwise_cons.mpr ⟨?_, h⟩
        intro b hb
        rcases List.mem_cons.mp hb with rfl | hb
        · exact hxy
        · exact le_trans hxy (hy b hb)
      · simp only [insertByKey, hxy, if_false]
        refine List.pairwise_cons.mpr ⟨?_, ih hys⟩
        intro b hb
        rcases (mem_insertByKey key x ys b).mp hb with rfl | hb
        · omega
        · exact hy b hb

theorem pairwise_sortByKey {α : Type} (key : α → Int) (l : List α) :
    (sortByKey key l).Pairwise (fun a b => key a ≤ key b) := by
  induction l with
  | nil => simp [sortByKey]
  | cons x xs ih => exact pairwise_insertByKey key x _ ih

/-! Status enums, from `tc/core/enums.py`. -/

/-- Project statuses (`ProjectStatus`). -/
inductive ProjectStatus where
  | initialized | planning | planned | running | paused | completed | failed
deriving DecidableEq, Repr

/-- Phase statuses (`PhaseStatus`). -/
inductive PhaseStatus where
  | pending | in_progress | completed | failed | skipped
deriving DecidableEq, Repr

/-- Task statuses (`TaskStatus`). -/
inductive TaskStatus where
  | pending | queued | running | completed | failed | retrying | paused | skipped
deriving DecidableEq, Repr

/-- Task kinds (`TaskType`). -/
inductive TaskType where
  | coding | review | security_review | deployment | verification | planning
deriving DecidableEq, Repr

/-- Session statuses (`SessionStatus`). -/
inductive SessionStatus where
  | pending | starting | running | completed | failed | killed | timed_out
deriving DecidableEq, Repr

/-- Session kinds (`SessionType`). -/
inductive SessionType where
  | coding | review | security_review | planning | deployment | verification
deriving DecidableEq, Repr

/-- Event kinds (`EventType`). -/
inductive EventType where
  | status_changed | created | retried | error | paused | resumed
  | review_scheduled | deployment_started | verification_result
  | human_input_requested
deriving DecidableEq, Repr

/-- String value of a `TaskStatus` (the `StrEnum` value). -/
def TaskStatus.toStr : TaskStatus → String
  | .pending => "pending"
  | .queued => "queued"
  | .running => "running"
  | .completed => "completed"
  | .failed => "failed"
  | .retrying => "retrying"
  | .paused => "paused"
  | .skipped => "skipped"

/-- String value of a `TaskType` (the `StrEnum` value). -/
def TaskType.toStr : TaskType → String
  | .coding => "coding"
  | .review => "review"
  | .security_review => "security_review"
  | .deployment => "deployment"
  | .verification => "verification"
  | .planning => "planning"

/-! State machine, from `tc/core/state_machine.py`. -/

/-- `VALID_TASK_TRANSITIONS`: the allowed-transition table for tasks. -/
def VALID_TASK_TRANSITIONS : TaskStatus → List TaskStatus
  | .pending => [.queued, .skipped]
  | .queued => [.running, .skipped]
  | .running => [.completed, .failed]
  | .failed => [.retrying, .paused, .skipped]
  | .retrying => [.running]
  | .paused => [.queued, .skipped]
  | .completed => []
  | .skipped => []

/-- `VALID_PHASE_TRANSITIONS`: the allowed-transition table for phases. -/
def VALID_PHASE_TRANSITIONS : PhaseStatus → List PhaseStatus
  | .pending => [.in_progress, .skipped]
  | .in_progress => [.completed, .failed, .skipped]
  | .completed => []
  | .failed => [.in_progress]
  | .skipped => []

/-- `VALID_SESSION_TRANSITIONS`: the allowed-transition table for sessions. -/
def VALID_SESSION_TRANSITIONS : SessionStatus → List SessionStatus
  | .pending => [.starting, .failed]
  | .starting => [.running, .failed]
  | .running => [.completed, .failed, .killed, .timed_out]
  | .completed => []
  | .failed => []
  | .killed => []
  | .timed_out => []

/-- `validate_transition` specialised to task statuses: returns `True` on an
allowed transition and raises `InvalidTransitionError` otherwise. -/
def validate_task_transition (current target : TaskStatus) (entity_type : String) :
    Except PyErr Bool :=
  if target ∈ VALID_TASK_TRANSITIONS current then .ok true
  else .error (.invalid_transition entity_type current.toStr target.toStr)

/-- `validate_transition` specialised to phase statuses. -/
def validate_phase_transition (current target : PhaseStatus) (entity_type : String) :
    Except PyErr Bool :=
  if target ∈ VALID_PHASE_TRANSITIONS current then .ok true
  else .error (.invalid_transition entity_type "current" "target")

/-- `validate_transition` specialised to session statuses. -/
def validate_session_transition (current target : SessionStatus) (entity_type : String) :
    Except PyErr Bool :=
  if target ∈ VALID_SESSION_TRANSITIONS current then .ok true
  else .error (.invalid_transition entity_type "current" "target")

/-! Domain models, from `tc/core/models.py`. Timestamps are `Int`. -/

/-- One row of `projects`. -/
structure Project where
  id : String
  name : String
  project_dir : String
  prd_path : String
  bootstrap_path : Option String
  claude_md_path : Option String
  status : ProjectStatus
  created_at : Int
  updated_at : Int
deriving DecidableEq, Repr

/-- One row of `phases`. -/
structure Phase where
  id : String
  project_id : String
  sequence : Int
  name : String
  description : Option String
  status : PhaseStatus
  started_at : Option Int
  completed_at : Option Int
  created_at : Int
deriving DecidableEq, Repr

/-- One row of `tasks`. -/
structure Task where
  id : String
  phase_id : String
  project_id : String
  sequence : Int
  name : String
  description : Option String
  task_type : TaskType
  brief_path : Option String
  status : TaskStatus
  retry_count : Int
  max_retries : Int
  error_context : Option String
  started_at : Option Int
  completed_at : Option Int
  created_at : Int
deriving DecidableEq, Repr

/-- One row of `task_dependencies`. -/
structure TaskDependency where
  task_id : String
  depends_on_id : String
deriving DecidableEq, Repr

/-- One row of `sessions`. -/
structure Session where
  id : String
  task_id : String
  project_id : String
  session_type : SessionType
  tmux_pane : Option String
  pid : Option Int
  status : SessionStatus
  exit_code : Option Int
  started_at : Option Int
  completed_at : Option Int
  duration_secs : Option Int
  log_path : Option String
  error_output : Option String
  created_at : Int
deriving DecidableEq, Repr

/-- Structured event metadata. The source stores `json.dumps` of one of
these shapes in the `metadata` TEXT column; the embedding stores the
payload itself, with dumps/loads the evident bijection on these shapes. -/
inductive Meta where
  | completion (summary : String) (files_changed : List String) (test_results : Option String)
  | failure (error_type error_message : String) (attempted_fixes : List String)
  | progress (status message : String) (percent_complete : Option Int)
  | review (verdict : String) (findings : List String) (summary : String)
  | human_input (question : String) (options : List String) (context : Option String)
deriving DecidableEq, Repr

/-- One row of `events`. -/
structure Event where
  id : Int
  project_id : String
  entity_type : String
  entity_id : String
  event_type : EventType
  old_value : Option String
  new_value : Option String
  metadata : Option Meta
  created_at : Int
deriving DecidableEq, Repr

/-- The relational store: each table as a list in rowid order
(`tc/db/schema.py`, accessed through `tc/db/repository.py`). -/
structure Store where
  projects : List Project
  phases : List Phase
  tasks : List Task
  task_dependencies : List TaskDependency
  sessions : List Session
  events : List Event
  next_event_id : Int
deriving DecidableEq, Repr

/-! Repository operations, from `tc/db/repository.py` and the SQL in
`tc/db/queries.py`. Every mutator commits before returning. -/

/-- `SELECT * FROM tasks WHERE id = ?` followed by `fetchone`. -/
def Store.find_task (s : Store) (task_id : String) : Option Task :=
  s.tasks.find? (fun t => t.id == task_id)

/-- `Repository.get_task`: raises `ValueError` when the id is absent. -/
def get_task (s : Store) (task_id : String) : Except PyErr Task :=
  match s.find_task task_id with
  | some t => .ok t
  | none => .error (.value_error ("Task not found: " ++ task_id))

/-- `SELECT * FROM projects WHERE id = ?` followed by `fetchone`. -/
def Store.find_project (s : Store) (project_id : String) : Option Project :=
  s.projects.find? (fun p => p.id == project_id)

/-- `Repository.get_project`. -/
def get_project (s : Store) (project_id : String) : Except PyErr Project :=
  match s.find_project project_id with
  | some p => .ok p
  | none => .error (.value_error ("Project not found: " ++ project_id))

/-- `UPDATE tasks SET ... WHERE id = ?`: apply `g` to every row whose id
matches. -/
def map_task_rows (s : Store) (task_id : String) (g : Task → Task) : Store :=
  { s with tasks := s.tasks.map (fun t => if t.id == task_id then g t else t) }

/-- Row effect of `Repository.update_task_status`: `UPDATE_TASK_STARTED`
when the target is `running` (sets `started_at`), `UPDATE_TASK_COMPLETED`
when `completed` (sets `completed_at`), plain `UPDATE_TASK_STATUS` otherwise. -/
def task_status_row_update (status : TaskStatus) (now : Int) (t : Task) : Task :=
  if status == .running then { t with status := status, started_at := some now }
  else if status == .completed then { t with status := status, completed_at := some now }
  else { t with status := status }

/-- `Repository.update_task_status`: runs the status UPDATE, commits, and
returns `get_task`. No transition validation is performed. -/
def update_task_status (s : Store) (task_id : String) (status : TaskStatus) (now : Int) :
    Except PyErr (Store × Task) :=
  let s' := map_task_rows s task_id (task_status_row_update status now)
  (get_task s' task_id).map (fun t => (s', t))

/-- Row effect of `UPDATE_TASK_ERROR`: records the error context and
increments `retry_count` by one. -/
def task_error_row_update (error_context : String) (t : Task) : Task :=
  { t with error_context := some error_context, retry_count := t.retry_count + 1 }

/-- `Repository.update_task_error`. -/
def update_task_error (s : Store) (task_id : String) (error_context : String) :
    Except PyErr (Store × Task) :=
  let s' := map_task_rows s task_id (task_error_row_update error_context)
  (get_task s' task_id).map (fun t => (s', t))

/-- `SELECT_TASKS_BY_PHASE`: tasks of a phase ordered by sequence. -/
def get_tasks_by_phase (s : Store) (phase_id : String) : List Task :=
  sortByKey (fun t => t.sequence) (s.tasks.filter (fun t => t.phase_id == phase_id))

/-- `SELECT_TASKS_BY_PROJECT`: tasks of a project ordered by sequence. -/
def get_tasks_by_project (s : Store) (project_id : String) : List Task :=
  sortByKey (fun t => t.sequence) (s.tasks.filter (fun t => t.project_id == project_id))

/-- `SELECT_TASKS_BY_STATUS` (no ORDER BY). -/
def get_tasks_by_status (s : Store) (project_id : String) (status : TaskStatus) : List Task :=
  s.tasks.filter (fun t => t.project_id == project_id && t.status == status)

/-- Filter of `SELECT_PENDING_TASKS_WITH_MET_DEPENDENCIES`: status
`pending` and no dependency edge whose target row exists with a status
other than `completed`. -/
def pending_with_met_deps_pred (s : Store) (project_id : String) (t : Task) : Bool :=
  t.project_id == project_id && t.status == .pending &&
    !(s.task_dependencies.any (fun td =>
      td.task_id == t.id &&
        s.tasks.any (fun dep => dep.id == td.depends_on_id && dep.status != .completed)))

/-- `Repository.get_pending_tasks_with_met_deps`: the query orders by
`t.sequence` alone. -/
def get_pending_tasks_with_met_deps (s : Store) (project_id : String) : List Task :=
  sortByKey (fun t => t.sequence) (s.tasks.filter (pending_with_met_deps_pred s project_id))

/-- `SELECT_PHASES_BY_PROJECT`: phases of a project ordered by sequence. -/
def get_phases_by_project (s : Store) (project_id : String) : List Phase :=
  sortByKey (fun p => p.sequence) (s.phases.filter (fun p => p.project_id == project_id))

/-- `Repository.update_phase_status`: `in_progress` also sets `started_at`,
`completed`/`failed` also set `completed_at`. Returns nothing. -/
def update_phase_status (s : Store) (phase_id : String) (status : PhaseStatus) (now : Int) :
    Store :=
  let g : Phase → Phase := fun p =>
    if status == .in_progress then { p with status := status, started_at := some now }
    else if status == .completed || status == .failed then
      { p with status := status, completed_at := some now }
    else { p with status := status }
  { s with phases := s.phases.map (fun p => if p.id == phase_id then g p else p) }

/-- `Repository.create_phase`: inserts and commits the row, then returns
the element at index `sequence - 1` of the project's phases ordered by
sequence (Python list indexing; out of range raises `IndexError` after the
commit). -/
def phase_row (id project_id : String) (sequence : Int) (name : String)
    (description : Option String) (status : PhaseStatus) (now : Int) : Phase :=
  { id := id, project_id := project_id, sequence := sequence, name := name,
    description := description, status := status,
    started_at := none, completed_at := none, created_at := now }

def create_phase (s : Store) (id project_id : String) (sequence : Int) (name : String)
    (description : Option String) (status : PhaseStatus) (now : Int) :
    Store × Except PyErr Phase :=
  let row : Phase := phase_row id project_id sequence name description status now
  let s' := { s with phases := s.phases ++ [row] }
  (s', match pyGet (get_phases_by_project s' project_id) (sequence - 1) with
    | some p => .ok p
    | none => .error .index_error)

/-- The row inserted by `Repository.create_task`. -/
def create_task_row (id phase_id project_id : String) (sequence : Int)
    (name : String) (task_type : TaskType) (description : Option String)
    (brief_path : Option String) (status : TaskStatus)
    (retry_count max_retries : Int) (now : Int) : Task :=
  { id := id, phase_id := phase_id, project_id := project_id, sequence := sequence,
    name := name, description := description, task_type := task_type,
    brief_path := brief_path, status := status, retry_count := retry_count,
    max_retries := max_retries, error_context := none,
    started_at := none, completed_at := none, created_at := now }

/-- `Repository.create_task`: inserts and commits the row, then returns
`get_task id` (the first row with that id). -/
def create_task (s : Store) (id phase_id project_id : String) (sequence : Int)
    (name : String) (task_type : TaskType) (description : Option String)
    (brief_path : Option String) (status : TaskStatus)
    (retry_count max_retries : Int) (now : Int) :
    Except PyErr (Store × Task) :=
  let row : Task := create_task_row id phase_id project_id sequence name task_type
    description brief_path status retry_count max_retries now
  let s' := { s with tasks := s.tasks ++ [row] }
  (get_task s' id).map (fun t => (s', t))

/-- `Repository.add_task_dependency`. -/
def add_task_dependency (s : Store) (task_id depends_on_id : String) :
    Store × TaskDependency :=
  let row : TaskDependency := { task_id := task_id, depends_on_id := depends_on_id }
  ({ s with task_dependencies := s.task_dependencies ++ [row] }, row)

/-- `Repository.create_event`: inserts with the next autoincrement id and
returns the inserted row. -/
def create_event (s : Store) (project_id entity_type entity_id : String)
    (event_type : EventType) (old_value new_value : Option String)
    (metadata : Option Meta) (now : Int) : Store × Event :=
  let row : Event :=
    { id := s.next_event_id, project_id := project_id, entity_type := entity_type,
      entity_id := entity_id, event_type := event_type, old_value := old_value,
      new_value := new_value, metadata := metadata, created_at := now }
  ({ s with events := s.events ++ [row], next_event_id := s.next_event_id + 1 }, row)

/-- `SELECT_EVENTS_BY_ENTITY`: newest first. -/
def get_events_by_entity (s : Store) (entity_type entity_id : String) : List Event :=
  sortByKey (fun e => -e.created_at)
    (s.events.filter (fun e => e.entity_type == entity_type && e.entity_id == entity_id))

/-- `SELECT_EVENTS_BY_PROJECT`: newest first, limited. -/
def get_events_by_project (s : Store) (project_id : String) (limit : Nat) : List Event :=
  (sortByKey (fun e => -e.created_at)
    (s.events.filter (fun e => e.project_id == project_id))).take limit

/-- `SELECT_SESSIONS_BY_TASK`: newest first by `created_at`. -/
def get_sessions_by_task (s : Store) (task_id : String) : List Session :=
  sortByKey (fun x => -x.created_at) (s.sessions.filter (fun x => x.task_id == task_id))

/-- `SELECT_ACTIVE_SESSIONS`: status in pending/starting/running. -/
def get_active_sessions (s : Store) (project_id : String) : List Session :=
  s.sessions.filter (fun x => x.project_id == project_id &&
    (x.status == .pending || x.status == .starting || x.status == .running))

/-- `Repository.create_session`: inserts and commits, then returns
element 0 of `get_sessions_by_task` (IndexError when that list is empty). -/
def session_row (id task_id project_id : String) (session_type : SessionType)
    (tmux_pane : Option String) (pid : Option Int) (status : SessionStatus)
    (log_path : Option String) (now : Int) : Session :=
  { id := id, task_id := task_id, project_id := project_id,
    session_type := session_type, tmux_pane := tmux_pane, pid := pid,
    status := status, exit_code := none, started_at := none, completed_at := none,
    duration_secs := none, log_path := log_path, error_output := none,
    created_at := now }

def create_session (s : Store) (id task_id project_id : String)
    (session_type : SessionType) (tmux_pane : Option String) (pid : Option Int)
    (status : SessionStatus) (log_path : Option String) (now : Int) :
    Store × Except PyErr Session :=
  let row : Session :=
    session_row id task_id project_id session_type tmux_pane pid status log_path now
  let s' := { s with sessions := s.sessions ++ [row] }
  (s', match (get_sessions_by_task s' task_id).head? with
    | some x => .ok x
    | none => .error .index_error)

/-- `UPDATE sessions SET ... WHERE id = ?`. -/
def map_session_rows (s : Store) (session_id : String) (g : Session → Session) : Store :=
  { s with sessions := s.sessions.map (fun x => if x.id == session_id then g x else x) }

/-- `Repository.update_session_status`. -/
def update_session_status (s : Store) (session_id : String) (status : SessionStatus) :
    Store :=
  map_session_rows s session_id (fun x => { x with status := status })

/-- `Repository.update_session_started` (`UPDATE_SESSION_STARTED` sets the
status to running, `started_at` and the pid). -/
def update_session_started (s : Store) (session_id : String) (pid : Int) (now : Int) :
    Store :=
  map_session_rows s session_id
    (fun x => { x with status := .running, started_at := some now, pid := some pid })

/-- `Repository.update_session_completed` (`UPDATE_SESSION_COMPLETED` sets
status, exit code, `completed_at` and the duration from `started_at`;
NULL `started_at` yields NULL duration). -/
def update_session_completed (s : Store) (session_id : String) (status : SessionStatus)
    (exit_code : Int) (now : Int) : Store :=
  map_session_rows s session_id
    (fun x =>
      { x with status := status, exit_code := some exit_code, completed_at := some now,
               duration_secs := x.started_at.map (fun st => now - st) })

/-- `Repository.update_project_status`: UPDATE then `get_project`. -/
def update_project_status (s : Store) (project_id : String) (status : ProjectStatus)
    (now : Int) : Except PyErr (Store × Project) :=
  let s' :=
    { s with projects := s.projects.map (fun p =>
        if p.id == project_id then { p with status := status, updated_at := now } else p) }
  (get_project s' project_id).map (fun p => (s', p))

/-! Retry policy, from `tc/core/retry_policy.py`. -/

/-- `RetryPolicy`: the orchestration engine constructs it with the default
`max_retries = 1`. -/
structure RetryPolicy where
  max_retries : Int
deriving DecidableEq, Repr

/-- `RetryPolicy.should_retry`. -/
def RetryPolicy.should_retry (p : RetryPolicy) (t : Task) : Bool :=
  t.retry_count < min t.max_retries p.max_retries

/-- `RetryPolicy.prepare_retry_context`. -/
def RetryPolicy.prepare_retry_context (_p : RetryPolicy) (t : Task)
    (error_output : String) : String :=
  "PREVIOUS ATTEMPT FAILED (attempt " ++ toString (t.retry_count + 1) ++ "):\n" ++
    "Error: " ++ error_output.take 2000 ++
    "\n\nPlease address this error and try a different approach if needed."

/-! Scheduler, from `tc/core/scheduler.py`. -/

/-- Plain keywords of the `_SECURITY_KEYWORDS` regex alternation. -/
def SECURITY_KEYWORDS : List String :=
  ["auth", "login", "password", "credential", "secret", "token", "jwt", "oauth",
   "session", "permission", "encrypt", "decrypt", "certificate", "ssl", "tls",
   "csrf", "xss", "injection", "security", "vulnerable", "sanitiz"]

/-- Spellings matched by the `api[_\s-]?key` branch of the regex (the
source's `\s` also covers non-ASCII whitespace; the ASCII cases are
modelled). -/
def API_KEY_SPELLINGS : List String :=
  ["apikey", "api_key", "api-key", "api key", "api\tkey", "api\nkey",
   "api\x0bkey", "api\x0ckey", "api\rkey"]

/-- `Scheduler.is_security_relevant`: case-insensitive keyword search over
`name + " " + (description or "")`. -/
def is_security_relevant (t : Task) : Bool :=
  let text := lowerStr (t.name ++ " " ++ t.description.getD "")
  SECURITY_KEYWORDS.any (fun kw => strContains text kw) ||
    API_KEY_SPELLINGS.any (fun kw => strContains text kw)

/-- `Scheduler._phase_ready`: every phase with a lower sequence than the
task's phase is `completed` or `skipped`; false when the task's phase is
not found. -/
def phase_ready (s : Store) (t : Task) : Bool :=
  let phases := get_phases_by_project s t.project_id
  match phases.find? (fun p => p.id == t.phase_id) with
  | none => false
  | some task_phase =>
      phases.all (fun p =>
        if p.sequence < task_phase.sequence then
          p.status == .completed || p.status == .skipped
        else true)

/-- `Scheduler.next_coding_task`: first eligible task of a coding-family
kind whose phase is ready. -/
def next_coding_task (s : Store) (project_id : String) : Option Task :=
  (get_pending_tasks_with_met_deps s project_id).find? (fun t =>
    (t.task_type == .coding || t.task_type == .deployment ||
      t.task_type == .verification || t.task_type == .planning) &&
    phase_ready s t)

/-- `Scheduler.next_review_task`: first queued task of a review kind. -/
def next_review_task (s : Store) (project_id : String) : Option Task :=
  (get_tasks_by_status s project_id .queued).find? (fun t =>
    t.task_type == .review || t.task_type == .security_review)

/-- `Scheduler.has_schedulable`. -/
def has_schedulable (s : Store) (project_id : String) : Bool :=
  if !(get_pending_tasks_with_met_deps s project_id).isEmpty then true
  else (get_tasks_by_status s project_id .queued).length > 0

/-- `Scheduler.all_complete`. -/
def all_complete (s : Store) (project_id : String) : Bool :=
  (get_tasks_by_project s project_id).all (fun t =>
    t.status == .completed || t.status == .skipped)

/-! Event bus, from `tc/core/events.py`. -/

/-- `EngineEvent` dataclass of the bus. Here `metadata` stays a raw string
as in the source (the engine never sets it). -/
structure EngineEvent where
  event_type : EventType
  entity_type : String
  entity_id : String
  message : String
  old_value : Option String
  new_value : Option String
  metadata : Option String
  timestamp : Option Int
deriving DecidableEq, Repr

/-- A subscriber callback; it may raise (`.error`). -/
abbrev Callback : Type := EngineEvent → Except PyErr Unit

/-- `EventBus` state: subscriber list and the drainable buffer. -/
structure EventBus where
  subscribers : List Callback
  queue : List EngineEvent

/-- The `for callback in self._subscribers: try: callback(...) except: pass`
loop of `EventBus.publish`: each callback is invoked and its outcome
recorded; an exception is caught and the loop continues. -/
def runCallbacks : List Callback → EngineEvent → List (Except PyErr Unit)
  | [], _ => []
  | cb :: rest, e =>
      match cb e with
      | .ok u => .ok u :: runCallbacks rest e
      | .error err => .error err :: runCallbacks rest e

/-- `EventBus.publish`: stamps the event (`event.timestamp or
datetime.now()`; a `datetime` is never falsy, so a present timestamp is
kept), appends it to the buffer, then runs every subscriber. The function
is total: no callback outcome escapes. -/
def EventBus.publish (bus : EventBus) (event : EngineEvent) (now : Int) :
    EventBus × List (Except PyErr Unit) :=
  let timestamped := { event with timestamp := some (event.timestamp.getD now) }
  let bus' := { bus with queue := bus.queue ++ [timestamped] }
  (bus', runCallbacks bus.subscribers timestamped)

/-- `EventBus.drain`. -/
def EventBus.drain (bus : EventBus) : EventBus × List EngineEvent :=
  ({ bus with queue := [] }, bus.queue)

/-! MCP tool handlers, from `tc/mcp/tools.py`. Each call uses a fresh
store handle; a raised `ToolError` is turned into a structured error
object by the server's `call_tool` wrapper. The pair returned here is the
committed database state together with the call's outcome: on an
exception the handler has made no writes, so the state is unchanged. -/

/-- `tc_report_progress`. -/
def tc_report_progress (s : Store) (task_id status message : String)
    (percent_complete : Option Int) (now : Int) : Store × Except PyErr String :=
  match get_task s task_id with
  | .error e => (s, .error e)
  | .ok task =>
      if task.status != .running then
        (s, .error (.tool_error ("Task " ++ task_id ++ " is not running (status: " ++
          task.status.toStr ++ ")")))
      else
        let metadata := Meta.progress status message percent_complete
        let (s1, _e) := create_event s task.project_id "task" task_id .status_changed
          none (some status) (some metadata) now
        (s1, .ok ("Progress reported: " ++ message))

/-- `tc_report_completion`. -/
def tc_report_completion (s : Store) (task_id summary : String)
    (files_changed : Option (List String)) (test_results : Option String)
    (now : Int) : Store × Except PyErr String :=
  match get_task s task_id with
  | .error e => (s, .error e)
  | .ok task =>
      if task.status != .running then
        (s, .error (.tool_error ("Task " ++ task_id ++ " is not running (status: " ++
          task.status.toStr ++ ")")))
      else
        let metadata := Meta.completion summary (files_changed.getD []) test_results
        match update_task_status s task_id .completed now with
        | .error e => (s, .error e)
        | .ok (s1, _t) =>
            let (s2, _e) := create_event s1 task.project_id "task" task_id
              .status_changed (some "running") (some "completed") (some metadata) now
            (s2, .ok ("Task completed: " ++ summary.take 100))

/-- `tc_report_failure`: records the (truncated) error and bumps
`retry_count`; the task status itself is not changed. -/
def tc_report_failure (s : Store) (task_id error_type error_message : String)
    (attempted_fixes : Option (List String)) (now : Int) :
    Store × Except PyErr String :=
  match get_task s task_id with
  | .error e => (s, .error e)
  | .ok task =>
      if task.status != .running then
        (s, .error (.tool_error ("Task " ++ task_id ++ " is not running (status: " ++
          task.status.toStr ++ ")")))
      else
        let metadata := Meta.failure error_type error_message (attempted_fixes.getD [])
        match update_task_error s task_id (error_message.take 2000) with
        | .error e => (s, .error e)
        | .ok (s1, _t) =>
            let (s2, _e) := create_event s1 task.project_id "task" task_id .error
              none (some error_type) (some metadata) now
            (s2, .ok ("Failure reported: " ++ error_type))

/-- `tc_report_review`: requires a review-kind task; verdict
`critical_issues` is recorded as an `error` event. -/
def tc_report_review (s : Store) (task_id verdict : String) (findings : List String)
    (summary : String) (now : Int) : Store × Except PyErr String :=
  match get_task s task_id with
  | .error e => (s, .error e)
  | .ok task =>
      if task.task_type != .review && task.task_type != .security_review then
        (s, .error (.tool_error ("Task " ++ task_id ++ " is not a review task (type: " ++
          task.task_type.toStr ++ ")")))
      else
        let metadata := Meta.review verdict findings summary
        let event_type := if verdict == "critical_issues" then EventType.error
          else EventType.status_changed
        let (s1, _e) := create_event s task.project_id "task" task_id event_type
          none (some verdict) (some metadata) now
        (s1, .ok ("Review submitted: " ++ verdict))

/-! Review coordinator, from `tc/orchestrator/review_coordinator.py`.
The `uuid.uuid4()` draw is passed in as `review_id`. -/

/-- Payload extractor mirroring the source's `"files_changed" in
event.metadata` test followed by `json.loads(...)["files_changed"]`: of
the payload shapes the handlers write, the completion payload is the one
whose JSON text contains that key. -/
def metaFilesChanged : Meta → Option (List String)
  | .completion _ files _ => some files
  | _ => none

/-- `ReviewCoordinator.get_files_changed`: scan the task's events (newest
first) for completion metadata. -/
def get_files_changed (s : Store) (t : Task) : List String :=
  match (get_events_by_entity s "task" t.id).findSome?
      (fun e => e.metadata.bind metaFilesChanged) with
  | some files => files
  | none => []

/-- `ReviewCoordinator.schedule_review`: creates a review task at
`max(existing sequences in phase) + 1`, adds the dependency edge, marks it
queued, and logs a `review_scheduled` event. -/
def schedule_review (s : Store) (review_id : String) (completed_task : Task)
    (_files_changed : List String) (now : Int) : Except PyErr (Store × Task) := do
  let review_name := "Review: " ++ completed_task.name
  let phase_tasks := get_tasks_by_phase s completed_task.phase_id
  let max_seq := pymax (phase_tasks.map (fun t => t.sequence)) 0
  let (s1, _rt) ← create_task s review_id completed_task.phase_id
    completed_task.project_id (max_seq + 1) review_name .review
    (some ("Code review for: " ++ completed_task.name)) none .pending 0 1 now
  let (s2, _d) := add_task_dependency s1 review_id completed_task.id
  let (s3, _t) ← update_task_status s2 review_id .queued now
  let (s4, _e) := create_event s3 completed_task.project_id "task" review_id
    .review_scheduled none (some ("Review scheduled for " ++ completed_task.name))
    none now
  let t ← get_task s4 review_id
  .ok (s4, t)

/-- `ReviewCoordinator.schedule_security_review`: same rule with kind
`security_review`. -/
def schedule_security_review (s : Store) (review_id : String) (completed_task : Task)
    (_files_changed : List String) (security_concern : String) (now : Int) :
    Except PyErr (Store × Task) := do
  let review_name := "Security Review: " ++ completed_task.name
  let phase_tasks := get_tasks_by_phase s completed_task.phase_id
  let max_seq := pymax (phase_tasks.map (fun t => t.sequence)) 0
  let (s1, _rt) ← create_task s review_id completed_task.phase_id
    completed_task.project_id (max_seq + 1) review_name .security_review
    (some ("Security review for: " ++ completed_task.name ++ " (concern: " ++
      security_concern ++ ")")) none .pending 0 1 now
  let (s2, _d) := add_task_dependency s1 review_id completed_task.id
  let (s3, _t) ← update_task_status s2 review_id .queued now
  let (s4, _e) := create_event s3 completed_task.project_id "task" review_id
    .review_scheduled none
    (some ("Security review scheduled for " ++ completed_task.name)) none now
  let t ← get_task s4 review_id
  .ok (s4, t)

/-! Session manager, from `tc/orchestrator/session_manager.py`, and the
monitor's `SessionCheckResult` from `tc/tmux/monitor.py`. Worker slots are
the in-memory dict `_active : session_id → pane_id`, modelled as an
association list. TMUX effects (`send_command`) do not touch the store. -/

/-- `SessionCheckResult` from the TMUX monitor. -/
structure SessionCheckResult where
  exited : Bool
  exit_code : Option Int
  stderr : String
deriving DecidableEq, Repr

/-- `TmuxManager.allocate_pane`: review-family tasks get the review pane,
everything else the coding pane. -/
def allocate_pane (task_type : TaskType) : String :=
  if task_type == .review || task_type == .security_review then "review" else "coding"

/-- `_TASK_TYPE_TO_SESSION_TYPE` (a total mapping; the `.get` default of
`CODING` is unreachable). -/
def task_type_to_session_type : TaskType → SessionType
  | .coding => .coding
  | .review => .review
  | .security_review => .security_review
  | .deployment => .deployment
  | .verification => .verification
  | .planning => .planning

/-- The three store writes of `SessionManager.spawn`, in order: insert the
session row (status `pending`), `update_session_status(..., RUNNING)`,
`update_session_started(..., pid=0)`. Returns each intermediate store and
the value `create_session` returned. -/
def spawn_steps (s : Store) (session_id : String) (task : Task)
    (project_dir : String) (now : Int) : Store × Store × Store × Except PyErr Session :=
  let pane_id := allocate_pane task.task_type
  let session_type := task_type_to_session_type task.task_type
  let log_path := project_dir ++ "/.tc/logs/session-" ++ session_id ++ ".log"
  let (s1, sess) := create_session s session_id task.id task.project_id session_type
    (some pane_id) none .pending (some log_path) now
  let s2 := update_session_status s1 session_id .running
  let s3 := update_session_started s2 session_id 0 now
  (s1, s2, s3, sess)

/-- `SessionManager.spawn`: runs the steps, records the slot in `_active`,
and returns the session that `create_session` produced. The task row is
not touched. -/
def spawn (s : Store) (active : List (String × String)) (session_id : String)
    (task : Task) (_brief_path : String) (project_dir : String) (now : Int) :
    Except PyErr (Store × List (String × String) × Session) :=
  let pane_id := allocate_pane task.task_type
  match spawn_steps s session_id task project_dir now with
  | (_s1, _s2, s3, .ok sess) => .ok (s3, active ++ [(session_id, pane_id)], sess)
  | (_s1, _s2, _s3, .error e) => .error e

/-- Stored status of one session. -/
def session_status_of (s : Store) (session_id : String) : Option SessionStatus :=
  (s.sessions.find? (fun x => x.id == session_id)).map (fun x => x.status)

/-- The session's stored status observed after each of the three session
writes that `SessionManager.spawn` performs. -/
def spawn_status_history (s : Store) (session_id : String) (task : Task)
    (project_dir : String) (now : Int) : List (Option SessionStatus) :=
  match spawn_steps s session_id task project_dir now with
  | (s1, s2, s3, _) =>
      [session_status_of s1 session_id, session_status_of s2 session_id,
       session_status_of s3 session_id]

/-- `SessionManager.has_active_coding`. -/
def has_active_coding (active : List (String × String)) : Bool :=
  active.any (fun p => p.2 == "coding")

/-- `SessionManager.has_active_review`. -/
def has_active_review (active : List (String × String)) : Bool :=
  active.any (fun p => p.2 == "review")

/-- `SessionManager.get_active_sessions` (the in-memory id list). -/
def get_active_session_ids (active : List (String × String)) : List String :=
  active.map (fun p => p.1)

/-- `SessionManager._get_project_id_from_session`: the source returns the
empty string unconditionally. -/
def get_project_id_from_session (_session_id : String) : String := ""

/-- `SessionManager.check_active`: for each slot, look the session up among
the active sessions of `_get_project_id_from_session(...)`; a missing
session is dropped from the slot map; an exited one is reaped. The pane
poll (`check_session`) is the external oracle `pane_check`. -/
def check_active (s : Store) (pane_check : String → SessionCheckResult) :
    List (String × String) →
    List (String × String) × List (Session × SessionCheckResult)
  | [] => ([], [])
  | (sid, pane) :: rest =>
      let actives := get_active_sessions s (get_project_id_from_session sid)
      match actives.find? (fun x => x.id == sid) with
      | none => check_active s pane_check rest
      | some session =>
          let result := pane_check pane
          let (restActive, restResults) := check_active s pane_check rest
          (if result.exited then restActive else (sid, pane) :: restActive,
            (session, result) :: restResults)

/-! Orchestration engine, from `tc/orchestrator/engine.py`. The engine
object's fields become `EngineState`; events handed to the bus by
`_publish` are collected in `published`; the brief files written under the
project directory form the map `fs`. `uuid.uuid4()` draws are modelled by
the counter `uuid_seed` through `uuidString`. -/

/-- Deterministic stand-in for the distinct strings drawn from
`uuid.uuid4()`. -/
def uuidString (n : Nat) : String := "uuid-" ++ toString n

/-- Engine plus session-manager state. -/
structure EngineState where
  store : Store
  active : List (String × String)
  published : List EngineEvent
  paused : Bool
  stopped : Bool
  project_id : String
  project_dir : String
  fs : List (String × String)
  uuid_seed : Nat
deriving Repr

/-- `OrchestrationEngine._publish`: wrap the data in an `EngineEvent` and
hand it to the bus. -/
def publish_engine (st : EngineState) (event_type : EventType)
    (entity_type entity_id message : String) : EngineState :=
  { st with published := st.published ++
      [{ event_type := event_type, entity_type := entity_type, entity_id := entity_id,
         message := message, old_value := none, new_value := none, metadata := none,
         timestamp := none }] }

/-- Lookup in the modelled file system. -/
def fs_exists (fs : List (String × String)) (path : String) : Bool :=
  fs.any (fun pc => pc.1 == path)

/-- `Path.write_text` in the modelled file system. -/
def fs_write (fs : List (String × String)) (path content : String) :
    List (String × String) :=
  if fs.any (fun pc => pc.1 == path) then
    fs.map (fun pc => if pc.1 == path then (pc.1, content) else pc)
  else fs ++ [(path, content)]

/-- `OrchestrationEngine._handle_failure`: record the failed session and
task, bump the retry counter via `update_task_error`, publish the error,
then decide on a retry from the refreshed task (the engine's policy is
`RetryPolicy()` with the default bound 1). The computed retry context is
dropped by the source ("picked up in the next tick via the scheduler"). -/
def handle_failure (st : EngineState) (task : Task) (session : Session)
    (error : String) (now : Int) : Except PyErr EngineState := do
  let s1 := update_session_completed st.store session.id .failed 1 now
  let (s2, _t) ← update_task_status s1 task.id .failed now
  let (s3, _t) ← update_task_error s2 task.id (error.take 2000)
  let st := publish_engine { st with store := s3 } .error "task" task.id
    ("Task failed: " ++ task.name)
  let refreshed ← get_task st.store task.id
  if RetryPolicy.should_retry { max_retries := 1 } refreshed then do
    let (s4, _t) ← update_task_status st.store task.id .retrying now
    let (s5, _t) ← update_task_status s4 task.id .running now
    let st := publish_engine { st with store := s5 } .retried "task" task.id
      ("Retrying task: " ++ task.name ++ " (attempt " ++
        toString (refreshed.retry_count + 1) ++ ")")
    let _retry_context := RetryPolicy.prepare_retry_context { max_retries := 1 }
      refreshed error
    .ok st
  else do
    let (s4, _t) ← update_task_status st.store task.id .paused now
    .ok (publish_engine { st with store := s4 } .paused "task" task.id
      ("Task paused after max retries: " ++ task.name))

/-- `OrchestrationEngine._check_phase_completion`: when every task of the
phase is completed or skipped, complete the phase and publish. -/
def check_phase_completion (st : EngineState) (task : Task) (now : Int) : EngineState :=
  let phase_tasks := get_tasks_by_phase st.store task.phase_id
  let all_done := phase_tasks.all (fun t =>
    t.status == .completed || t.status == .skipped)
  if all_done then
    publish_engine
      { st with store := update_phase_status st.store task.phase_id .completed now }
      .status_changed "phase" task.phase_id "Phase completed"
  else st

/-- `OrchestrationEngine._handle_completion`: record the completed session
and task, publish, check the phase, and for coding tasks let the Review
Coordinator schedule a review (plus a security review when the task is
security-relevant). The two `uuid4` draws are `review_id` and
`sec_review_id`. -/
def handle_completion (st : EngineState) (review_id sec_review_id : String)
    (task : Task) (session : Session) (now : Int) : Except PyErr EngineState := do
  let s1 := update_session_completed st.store session.id .completed 0 now
  let (s2, _t) ← update_task_status s1 task.id .completed now
  let st := publish_engine { st with store := s2 } .status_changed "task" task.id
    ("Task completed: " ++ task.name)
  let st := check_phase_completion st task now
  if task.task_type == .coding then do
    let files := get_files_changed st.store task
    let (s3, _rt) ← schedule_review st.store review_id task files now
    let st := { st with store := s3 }
    if is_security_relevant task then do
      let (s4, _rt) ← schedule_security_review st.store sec_review_id task files
        "security-relevant code detected" now
      .ok { st with store := s4 }
    else .ok st
  else .ok st

/-- `OrchestrationEngine._start_phase_if_needed`: move the task's phase to
`in_progress` when it is still pending, and publish. -/
def start_phase_if_needed (st : EngineState) (task : Task) (now : Int) : EngineState :=
  let phases := get_phases_by_project st.store task.project_id
  match phases.find? (fun p => p.id == task.phase_id && p.status == .pending) with
  | some phase =>
      publish_engine
        { st with store := update_phase_status st.store phase.id .in_progress now }
        .status_changed "phase" phase.id ("Phase started: " ++ phase.name)
  | none => st

/-- `OrchestrationEngine._dispatch_task`: queue a pending task, set it
running, ensure a brief file exists (writing the minimal brief when
missing), spawn the worker session, and publish. -/
def dispatch_task (st : EngineState) (task : Task) (now : Int) :
    Except PyErr EngineState := do
  let session_id := uuidString st.uuid_seed
  let st := { st with uuid_seed := st.uuid_seed + 1 }
  let st ← if task.status == .pending then do
      let (s', _t) ← update_task_status st.store task.id .queued now
      pure { st with store := s' }
    else pure st
  let (s2, _t) ← update_task_status st.store task.id .running now
  let st := { st with store := s2 }
  let brief_path := task.brief_path.getD
    (st.project_dir ++ "/.tc/briefs/" ++ task.id ++ "-brief.md")
  let brief_content := "# Task: " ++ task.name ++ "\n\n" ++ task.description.getD "" ++ "\n"
  let st :=
    if fs_exists st.fs brief_path then st
    else { st with fs := fs_write st.fs brief_path brief_content }
  let refetched ← get_task st.store task.id
  let (s3, active', _sess) ← spawn st.store st.active session_id refetched brief_path
    st.project_dir now
  .ok (publish_engine { st with store := s3, active := active' } .status_changed
    "task" task.id ("Task dispatched: " ++ task.name))

/-- One reap step of `_check_sessions`: skip sessions that have not
exited; exit code 0 is a completion, anything else a failure. -/
def reap_results (st : EngineState) (now : Int) :
    List (Session × SessionCheckResult) → Except PyErr EngineState
  | [] => .ok st
  | (session, result) :: rest =>
      if !result.exited then reap_results st now rest
      else
        match get_task st.store session.task_id with
        | .error e => .error e
        | .ok task =>
            let ids := (uuidString st.uuid_seed, uuidString (st.uuid_seed + 1))
            let st' := { st with uuid_seed := st.uuid_seed + 2 }
            match (if result.exit_code == some 0 then
                handle_completion st' ids.1 ids.2 task session now
              else handle_failure st' task session result.stderr now) with
            | .error e => .error e
            | .ok st2 => reap_results st2 now rest

/-- `OrchestrationEngine._check_sessions`: poll the slots and handle every
exited session. -/
def check_sessions (st : EngineState) (pane_check : String → SessionCheckResult)
    (now : Int) : Except PyErr EngineState :=
  let (active', results) := check_active st.store pane_check st.active
  reap_results { st with active := active' } now results

/-- `OrchestrationEngine._tick`: reap, completion check, pause gate,
review dispatch, coding dispatch, deadlock detection. The deadlock branch
publishes a `paused` event and sets the in-memory flag only. -/
def tick (st : EngineState) (pane_check : String → SessionCheckResult) (now : Int) :
    Except PyErr EngineState := do
  let st ← check_sessions st pane_check now
  if all_complete st.store st.project_id then do
    let (s', _p) ← update_project_status st.store st.project_id .completed now
    .ok { publish_engine { st with store := s' } .status_changed "project"
      st.project_id "All tasks completed" with stopped := true }
  else if st.paused then .ok st
  else do
    let st ←
      if !(has_active_review st.active) then
        match next_review_task st.store st.project_id with
        | some review_task => dispatch_task st review_task now
        | none => pure st
      else pure st
    let st ←
      if !(has_active_coding st.active) then
        match next_coding_task st.store st.project_id with
        | some coding_task =>
            dispatch_task (start_phase_if_needed st coding_task now) coding_task now
        | none => pure st
      else pure st
    if (get_active_session_ids st.active).isEmpty &&
        !(has_schedulable st.store st.project_id) &&
        !(all_complete st.store st.project_id) then
      let running := get_tasks_by_status st.store st.project_id .running
      let retrying := get_tasks_by_status st.store st.project_id .retrying
      if running.isEmpty && retrying.isEmpty then
        .ok { publish_engine st .paused "project" st.project_id
          "Deadlock detected: no schedulable tasks and not all complete" with
          paused := true }
      else .ok st
    else .ok st

/-! General lemmas about the list primitives the store model is built on. -/

theorem find?_map_update_pres {α : Type} (idf : α → String) (key : String)
    (g : α → α) (hg : ∀ x, idf (g x) = idf x) (l : List α) :
    (l.map (fun x => if idf x == key then g x else x)).find? (fun x => idf x == key) =
      (l.find? (fun x => idf x == key)).map g := by
  induction l with
  | nil => rfl
  | cons t ts ih =>
      cases h : (idf t == key) with
      | true =>
          have hgt : (idf (g t) == key) = true := by rw [hg t]; exact h
          rw [List.map_cons, if_pos h]
          simp only [List.find?_cons, hgt, h, Option.map_some']
      | false =>
          rw [List.map_cons, if_neg (by simp [h])]
          simp only [List.find?_cons, h, ih]

theorem find?_map_update_ne {α : Type} (idf : α → String) (key other : String)
    (g : α → α) (hg : ∀ x, idf (g x) = idf x) (hne : other ≠ key) (l : List α) :
    (l.map (fun x => if idf x == key then g x else x)).find? (fun x => idf x == other) =
      l.find? (fun x => idf x == other) := by
  induction l with
  | nil => rfl
  | cons t ts ih =>
      cases h : (idf t == key) with
      | true =>
          have heq : idf t = key := by simpa using h
          have h1 : (idf (g t) == other) = false := by
            rw [hg t, heq]
            simp
            exact fun hc => hne hc.symm
          have h2 : (idf t == other) = false := by
            rw [heq]
            simp
            exact fun hc => hne hc.symm
          rw [List.map_cons, if_pos h]
          simp only [List.find?_cons, h1, h2, ih]
      | false =>
          rw [List.map_cons, if_neg (by simp [h])]
          cases h2 : (idf t == other) with
          | true => simp only [List.find?_cons, h2]
          | false => simp only [List.find?_cons, h2, ih]

theorem find?_append_fresh {α : Type} (idf : α → String) (key : String)
    (x : α) (l : List α) (h : ∀ y ∈ l, (idf y == key) = false) :
    ((l ++ [x]).find? (fun y => idf y == key)) =
      if idf x == key then some x else none := by
  induction l with
  | nil =>
      cases hx : (idf x == key) with
      | true =>
          rw [List.nil_append]
          simp [List.find?_cons, hx]
      | false =>
          rw [List.nil_append]
          simp [List.find?_cons, hx]
  | cons t ts ih =>
      have ht : (idf t == key) = false := h t (List.mem_cons_self t ts)
      rw [List.cons_append]
      simp only [List.find?_cons, ht]
      exact ih (fun y hy => h y (List.mem_cons_of_mem t hy))

theorem map_update_fresh {α : Type} (idf : α → String) (key : String)
    (g : α → α) (x : α) (l : List α) (h : ∀ y ∈ l, (idf y == key) = false) :
    ((l ++ [x]).map (fun y => if idf y == key then g y else y)) =
      l ++ [if idf x == key then g x else x] := by
  induction l with
  | nil => rfl
  | cons t ts ih =>
      have ht : (idf t == key) = false := h t (List.mem_cons_self t ts)
      rw [List.cons_append, List.map_cons, if_neg (by simp [ht]),
        ih (fun y hy => h y (List.mem_cons_of_mem t hy)), List.cons_append]

theorem insertByKey_map_pres {α : Type} (key : α → Int) (f : α → α)
    (hf : ∀ x, key (f x) = key x) (x : α) (l : List α) :
    insertByKey key (f x) (l.map f) = (insertByKey key x l).map f := by
  induction l with
  | nil => rfl
  | cons y ys ih =>
      by_cases h : key x ≤ key y
      · have h' : key (f x) ≤ key (f y) := by rw [hf, hf]; exact h
        simp [insertByKey, h, h']
      · have h' : ¬ key (f x) ≤ key (f y) := by rw [hf, hf]; exact h
        simp [insertByKey, h, h', ih]

theorem sortByKey_map_pres {α : Type} (key : α → Int) (f : α → α)
    (hf : ∀ x, key (f x) = key x) (l : List α) :
    sortByKey key (l.map f) = (sortByKey key l).map f := by
  induction l with
  | nil => rfl
  | cons x xs ih =>
      simp only [List.map, sortByKey, ih]
      exact insertByKey_map_pres key f hf x _

theorem filter_map_pres {α : Type} (p : α → Bool) (f : α → α)
    (hf : ∀ x, p (f x) = p x) (l : List α) :
    (l.map f).filter p = (l.filter p).map f := by
  induction l with
  | nil => rfl
  | cons x xs ih =>
      cases h : p x with
      | true => simp [List.filter, hf x, h, ih]
      | false => simp [List.filter, hf x, h, ih]

theorem le_foldl_max_init (x : Int) (l : List Int) : x ≤ l.foldl max x := by
  induction l generalizing x with
  | nil => exact le_refl x
  | cons y ys ih => exact le_trans (le_max_left x y) (ih (max x y))

theorem le_foldl_max_mem {a : Int} {l : List Int} (x : Int) (h : a ∈ l) :
    a ≤ l.foldl max x := by
  induction l generalizing x with
  | nil => cases h
  | cons y ys ih =>
      rcases List.mem_cons.mp h with rfl | h'
      · exact le_trans (le_max_right x a) (le_foldl_max_init _ ys)
      · exact ih (max x y) h'

theorem foldl_max_mem (x : Int) (l : List Int) :
    l.foldl max x = x ∨ l.foldl max x ∈ l := by
  induction l generalizing x with
  | nil => exact Or.inl rfl
  | cons y ys ih =>
      rcases ih (max x y) with h | h
      · rcases max_choice x y with hm | hm
        · exact Or.inl (by rw [List.foldl, h, hm])
        · exact Or.inr (by rw [List.foldl, h, hm]; exact List.mem_cons_self y ys)
      · exact Or.inr (List.mem_cons_of_mem y h)

theorem pymax_mem {l : List Int} (d : Int) (h : l ≠ []) : pymax l d ∈ l := by
  match l with
  | [] => exact absurd rfl h
  | x :: rest =>
      rcases foldl_max_mem x rest with h1 | h1
      · rw [pymax, h1]; exact List.mem_cons_self x rest
      · rw [pymax]; exact List.mem_cons_of_mem x h1

theorem le_pymax {a : Int} {l : List Int} (d : Int) (h : a ∈ l) : a ≤ pymax l d := by
  match l with
  | [] => cases h
  | x :: rest =>
      rcases List.mem_cons.mp h with rfl | h'
      · rw [pymax]; exact le_foldl_max_init a rest
      · rw [pymax]; exact le_foldl_max_mem x h'

theorem pymax_eq_of {x : Int} {l : List Int} (d : Int) (hx : x ∈ l)
    (hub : ∀ y ∈ l, y ≤ x) : pymax l d = x := by
  have h1 : pymax l d ≤ x := hub _ (pymax_mem d (List.ne_nil_of_mem hx))
  have h2 : x ≤ pymax l d := le_pymax d hx
  omega

theorem pymax_congr {l₁ l₂ : List Int} (d : Int) (h : ∀ x, x ∈ l₁ ↔ x ∈ l₂) :
    pymax l₁ d = pymax l₂ d := by
  match h1 : l₁, h2 : l₂ with
  | [], [] => rfl
  | [], y :: ys => exact absurd ((h y).mpr (List.mem_cons_self y ys)) (by simp)
  | x :: xs, [] => exact absurd ((h x).mp (List.mem_cons_self x xs)) (by simp)
  | x :: xs, y :: ys =>
      have hne1 : (x :: xs) ≠ ([] : List Int) := by simp
      have hne2 : (y :: ys) ≠ ([] : List Int) := by simp
      have ha : pymax (x :: xs) d ≤ pymax (y :: ys) d :=
        le_pymax d ((h _).mp (pymax_mem d hne1))
      have hb : pymax (y :: ys) d ≤ pymax (x :: xs) d :=
        le_pymax d ((h _).mpr (pymax_mem d hne2))
      omega

/-! Store-level consequences of the list lemmas. -/

theorem task_status_row_update_id (status : TaskStatus) (now : Int) (t : Task) :
    (task_status_row_update status now t).id = t.id := by
  unfold task_status_row_update
  by_cases h1 : (status == TaskStatus.running) = true <;>
    by_cases h2 : (status == TaskStatus.completed) = true <;>
    simp [h1, h2]

theorem task_error_row_update_id (ec : String) (t : Task) :
    (task_error_row_update ec t).id = t.id := rfl

theorem get_task_found {s : Store} {tid : String} {task : Task}
    (hfind : s.find_task tid = some task) : get_task s tid = .ok task := by
  unfold get_task
  rw [hfind]

theorem find_task_map_rows (s : Store) (tid : String) (g : Task → Task)
    (hg : ∀ t, (g t).id = t.id) :
    (map_task_rows s tid g).find_task tid = (s.find_task tid).map g := by
  show (s.tasks.map (fun t => if t.id == tid then g t else t)).find?
      (fun t => t.id == tid) = (s.tasks.find? (fun t => t.id == tid)).map g
  exact find?_map_update_pres (fun t => t.id) tid g hg s.tasks

theorem update_task_status_found {s : Store} {tid : String} {task : Task}
    (status : TaskStatus) (now : Int) (hfind : s.find_task tid = some task) :
    update_task_status s tid status now =
      .ok (map_task_rows s tid (task_status_row_update status now),
           task_status_row_update status now task) := by
  have h1 : (map_task_rows s tid (task_status_row_update status now)).find_task tid
      = some (task_status_row_update status now task) := by
    rw [find_task_map_rows s tid _ (task_status_row_update_id status now), hfind]
    rfl
  simp only [update_task_status, get_task_found h1, Except.map]

theorem update_task_error_found {s : Store} {tid : String} {task : Task}
    (ec : String) (hfind : s.find_task tid = some task) :
    update_task_error s tid ec =
      .ok (map_task_rows s tid (task_error_row_update ec),
           task_error_row_update ec task) := by
  have h1 : (map_task_rows s tid (task_error_row_update ec)).find_task tid
      = some (task_error_row_update ec task) := by
    rw [find_task_map_rows s tid _ (task_error_row_update_id ec), hfind]
    rfl
  simp only [update_task_error, get_task_found h1, Except.map]

theorem except_pure_bind {α β : Type} (a : α) (f : α → Except PyErr β) :
    (pure a : Except PyErr α) >>= f = f a := rfl

theorem except_ok_bind {α β : Type} (a : α) (f : α → Except PyErr β) :
    (Except.ok a : Except PyErr α) >>= f = f a := rfl

theorem except_error_bind {α β : Type} (e : PyErr) (f : α → Except PyErr β) :
    (Except.error e : Except PyErr α) >>= f = Except.error e := rfl

theorem runCallbacks_eq_map (l : List Callback) (e : EngineEvent) :
    runCallbacks l e = l.map (fun cb => cb e) := by
  induction l with
  | nil => rfl
  | cons cb rest ih =>
      unfold runCallbacks
      cases h : cb e with
      | ok u => simp [h, ih]
      | error err => simp [h, ih]

/-! Shared concrete fixtures used by witnesses and counterexamples. -/

/-- A project row in status `running`. -/
def proj0 : Project :=
  { id := "p1", name := "Proj", project_dir := "/tmp/p", prd_path := "prd.md",
    bootstrap_path := none, claude_md_path := none, status := .running,
    created_at := 0, updated_at := 0 }

/-- A phase row. -/
def phase0 : Phase :=
  { id := "ph1", project_id := "p1", sequence := 1, name := "Phase 1",
    description := none, status := .pending, started_at := none,
    completed_at := none, created_at := 0 }

/-- A coding task row in status `pending`. -/
def task0 : Task :=
  { id := "t1", phase_id := "ph1", project_id := "p1", sequence := 1,
    name := "Task 1", description := none, task_type := .coding,
    brief_path := none, status := .pending, retry_count := 0, max_retries := 1,
    error_context := none, started_at := none, completed_at := none,
    created_at := 0 }

/-- A session row for `task0`. -/
def sess0 : Session :=
  { id := "s1", task_id := "t1", project_id := "p1", session_type := .coding,
    tmux_pane := some "coding", pid := some 0, status := .running,
    exit_code := none, started_at := some 1, completed_at := none,
    duration_secs := none, log_path := none, error_output := none,
    created_at := 1 }

/-- A store holding `proj0`, `phase0` and `task0`. -/
def store0 : Store :=
  { projects := [proj0], phases := [phase0], tasks := [task0],
    task_dependencies := [], sessions := [], events := [], next_event_id := 1 }

/-- A running task with `max_retries = 0`. -/
def task_c3 : Task := { task0 with status := .running, max_retries := 0 }

/-- `store0` with `task_c3` as its only task. -/
def store_c3 : Store := { store0 with tasks := [task_c3] }

/-- A second phase with sequence 2. -/
def phase_c4 : Phase := { phase0 with id := "ph2", sequence := 2 }

/-- A pending task in the first phase with a large task sequence. -/
def task_c4a : Task := { task0 with id := "tA", phase_id := "ph1", sequence := 5 }

/-- A pending task in the second phase with a small task sequence. -/
def task_c4b : Task := { task0 with id := "tB", phase_id := "ph2", sequence := 2 }

/-- Store with two phases and the two pending tasks above. -/
def store_c4 : Store :=
  { store0 with phases := [phase0, phase_c4], tasks := [task_c4a, task_c4b] }

/-- Store with a project but no phases at all. -/
def store_c10 : Store := { store0 with phases := [] }

/-- A queued task, ready for dispatch. -/
def task_c7 : Task := { task0 with status := .queued }

/-- `store0` with `task_c7` as its only task. -/
def store_c7 : Store := { store0 with tasks := [task_c7] }

/-- An engine state over `store_c7` with free slots. -/
def engine_c7 : EngineState :=
  { store := store_c7, active := [], published := [], paused := false,
    stopped := false, project_id := "p1", project_dir := "/tmp/p", fs := [],
    uuid_seed := 0 }

/-- A running task with the default `max_retries = 1` and no retries yet. -/
def task_c2 : Task := { task0 with status := .running }

/-- Store with `task_c2` running in session `sess0`. -/
def store_c2 : Store := { store0 with tasks := [task_c2], sessions := [sess0] }

/-- Engine state for the failure-handling scenario. -/
def engine_c2 : EngineState :=
  { store := store_c2, active := [("s1", "coding")], published := [],
    paused := false, stopped := false, project_id := "p1",
    project_dir := "/tmp/p", fs := [], uuid_seed := 0 }

/-- A task stuck in `paused`: not schedulable, not complete, not running. -/
def task_c5 : Task := { task0 with status := .paused }

/-- Store whose only task is `task_c5`. -/
def store_c5 : Store := { store0 with tasks := [task_c5] }

/-- Engine state in the deadlock scenario. -/
def engine_c5 : EngineState :=
  { store := store_c5, active := [], published := [], paused := false,
    stopped := false, project_id := "p1", project_dir := "/tmp/p", fs := [],
    uuid_seed := 0 }

/-- A running security-relevant coding task (name contains "auth"). -/
def task_c8 : Task := { task0 with name := "Build auth", status := .running }

/-- Store with `task_c8` running in session `sess0`. -/
def store_c8 : Store := { store0 with tasks := [task_c8], sessions := [sess0] }

/-- Engine state for the completion-handling scenario. -/
def engine_c8 : EngineState :=
  { store := store_c8, active := [("s1", "coding")], published := [],
    paused := false, stopped := false, project_id := "p1",
    project_dir := "/tmp/p", fs := [], uuid_seed := 0 }

/-! Claim C1. -/

/-- C1 (amended): the state-machine module's `validate_transition` rejects
every transition outside the task table with `InvalidTransition` (in
particular `pending → running`), but task status updates through the Store
are not validated: `Repository.update_task_status` applies any target
status unconditionally and the stored status becomes the target. -/
theorem C1_store_update_unvalidated :
    (∀ current target : TaskStatus, target ∉ VALID_TASK_TRANSITIONS current →
      validate_task_transition current target "task" =
        .error (.invalid_transition "task" current.toStr target.toStr)) ∧
    (∀ (s : Store) (task : Task) (status : TaskStatus) (now : Int),
      s.find_task task.id = some task →
      update_task_status s task.id status now =
        .ok (map_task_rows s task.id (task_status_row_update status now),
             task_status_row_update status now task)) ∧
    (∀ (status : TaskStatus) (now : Int) (t : Task),
      (task_status_row_update status now t).status = status) := by
  refine ⟨?_, ?_, ?_⟩
  · intro current target h
    unfold validate_task_transition
    rw [if_neg h]
  · intro s task status now hfind
    exact update_task_status_found status now hfind
  · intro status now t
    unfold task_status_row_update
    by_cases h1 : (status == TaskStatus.running) = true <;>
      by_cases h2 : (status == TaskStatus.completed) = true <;>
      simp [h1, h2]

/-- C1 witness: `validate_transition` rejects `pending → running`, while
the Store applies that same update to a stored pending task. -/
theorem C1_witness :
    validate_task_transition .pending .running "task" =
      .error (.invalid_transition "task" "pending" "running") ∧
    update_task_status store0 task0.id .running 5 =
      .ok (map_task_rows store0 task0.id (task_status_row_update .running 5),
           task_status_row_update .running 5 task0) ∧
    (task_status_row_update .running 5 task0).status = .running :=
  ⟨C1_store_update_unvalidated.1 .pending .running (by decide),
   C1_store_update_unvalidated.2.1 store0 task0 .running 5 rfl,
   C1_store_update_unvalidated.2.2 .running 5 task0⟩

/-- C1 counterexample: updating the stored pending task `t1` directly to
`running` through the Store succeeds (no `InvalidTransition`) and the
stored status becomes `running`, not `pending`. -/
theorem C1_counterexample :
    (update_task_status store0 "t1" .running 5).map
      (fun p => (p.2.status, (p.1.find_task "t1").map Task.status)) =
      .ok (.running, some .running) := rfl

/-! Claim C3. -/

/-- C3 (amended): `retry_count ≤ max_retries` does not hold at all
observable points: `tc_report_failure` on a running task always increments
`retry_count` by exactly one (recording the truncated error and leaving
the status and `max_retries` unchanged) with no bound check against
`max_retries`, so the counter can exceed the bound. -/
theorem C3_report_failure_unbounded (s : Store) (task : Task)
    (et em : String) (fixes : Option (List String)) (now : Int)
    (hfind : s.find_task task.id = some task) (hrun : task.status = .running) :
    (tc_report_failure s task.id et em fixes now).1.find_task task.id =
      some { task with error_context := some (em.take 2000),
                       retry_count := task.retry_count + 1 } ∧
    (tc_report_failure s task.id et em fixes now).2 =
      .ok ("Failure reported: " ++ et) := by
  have hupd := update_task_error_found (em.take 2000) hfind
  unfold tc_report_failure
  rw [get_task_found hfind]
  simp only [hrun, hupd]
  constructor
  · show (map_task_rows s task.id (task_error_row_update (em.take 2000))).find_task
        task.id = _
    rw [find_task_map_rows s task.id _ (task_error_row_update_id (em.take 2000)), hfind]
    simp [task_error_row_update, hrun]
  · rfl

/-- C3 witness: a single failure report on a running task bumps its
retry counter from 0 to 1. -/
theorem C3_witness :
    store_c3.find_task task_c3.id = some task_c3 ∧ task_c3.status = .running ∧
    ((tc_report_failure store_c3 task_c3.id "e" "m" none 5).1.find_task task_c3.id =
      some { task_c3 with error_context := some ("m".take 2000),
                          retry_count := task_c3.retry_count + 1 } ∧
     (tc_report_failure store_c3 task_c3.id "e" "m" none 5).2 =
      .ok ("Failure reported: " ++ "e")) :=
  ⟨rfl, rfl, C3_report_failure_unbounded store_c3 task_c3 "e" "m" none 5 rfl rfl⟩

/-- C3 counterexample: one `report_failure` on a running task with
`max_retries = 0` leaves the stored task with `retry_count = 1 > 0 =
max_retries`, violating the claimed invariant at an observable point. -/
theorem C3_counterexample :
    ((tc_report_failure store_c3 "t1" "err" "boom" none 5).1.find_task "t1").map
      (fun t => (t.retry_count, t.max_retries, decide (t.retry_count ≤ t.max_retries)))
      = some (1, 0, false) := rfl

/-! Claim C9. -/

/-- C9: `EventBus.publish` is total even when subscriber callbacks raise;
the stamped event is appended to the drainable buffer unconditionally, the
subscriber list is unchanged, and every subscriber is invoked exactly once
in registration order (the outcome list is the pointwise application, so a
throwing subscriber never prevents later ones); the timestamp is the
event's own when present and the publish-time clock otherwise. -/
theorem C9_publish_isolates_subscribers (bus : EventBus) (event : EngineEvent)
    (now : Int) :
    (bus.publish event now).1.queue =
      bus.queue ++ [{ event with timestamp := some (event.timestamp.getD now) }] ∧
    (bus.publish event now).1.subscribers = bus.subscribers ∧
    (bus.publish event now).2 =
      bus.subscribers.map
        (fun cb => cb { event with timestamp := some (event.timestamp.getD now) }) :=
  ⟨rfl, rfl, runCallbacks_eq_map bus.subscribers _⟩

/-! Claim C6. -/

/-- C6: `tc_report_completion` succeeds exactly on a running task, in
which case it transitions the stored task to `completed` and appends one
`status_changed` event whose metadata carries summary, files changed and
test results; on any other status it returns an error and the store is
unchanged (no status update, no event). -/
theorem C6_report_completion_contract (s : Store) (task : Task)
    (summary : String) (files : Option (List String)) (tests : Option String)
    (now : Int) (hfind : s.find_task task.id = some task) :
    (task.status = .running →
      (tc_report_completion s task.id summary files tests now).1.find_task task.id =
        some { task with status := .completed, completed_at := some now } ∧
      (tc_report_completion s task.id summary files tests now).1.events =
        s.events ++
          [{ id := s.next_event_id, project_id := task.project_id,
             entity_type := "task", entity_id := task.id,
             event_type := .status_changed, old_value := some "running",
             new_value := some "completed",
             metadata := some (.completion summary (files.getD []) tests),
             created_at := now }] ∧
      (tc_report_completion s task.id summary files tests now).2 =
        .ok ("Task completed: " ++ summary.take 100)) ∧
    (task.status ≠ .running →
      (tc_report_completion s task.id summary files tests now).1 = s ∧
      (tc_report_completion s task.id summary files tests now).2 =
        .error (.tool_error ("Task " ++ task.id ++ " is not running (status: " ++
          task.status.toStr ++ ")"))) := by
  constructor
  · intro hrun
    have hupd := update_task_status_found .completed now hfind
    unfold tc_report_completion
    rw [get_task_found hfind]
    simp only [hrun, hupd]
    refine ⟨?_, ?_, ?_⟩
    · show (map_task_rows s task.id (task_status_row_update .completed now)).find_task
          task.id = _
      rw [find_task_map_rows s task.id _ (task_status_row_update_id .completed now),
        hfind]
      simp [task_status_row_update, hrun]
    · show (map_task_rows s task.id (task_status_row_update .completed now)).events ++ _
          = _
      rfl
    · rfl
  · intro hne
    have hb : (task.status != TaskStatus.running) = true := by
      simp [hne]
    unfold tc_report_completion
    rw [get_task_found hfind]
    simp only [hb]
    exact ⟨rfl, rfl⟩

/-- C6 witness: report_completion on the running fixture task completes it
and appends the event; on the pending fixture task it errors and leaves
the store unchanged. -/
theorem C6_witness :
    store_c3.find_task task_c3.id = some task_c3 ∧ task_c3.status = .running ∧
    ((tc_report_completion store_c3 task_c3.id "done" none none 7).1.find_task
        task_c3.id =
      some { task_c3 with status := .completed, completed_at := some 7 } ∧
     (tc_report_completion store_c3 task_c3.id "done" none none 7).1.events =
      store_c3.events ++
        [{ id := store_c3.next_event_id, project_id := task_c3.project_id,
           entity_type := "task", entity_id := task_c3.id,
           event_type := .status_changed, old_value := some "running",
           new_value := some "completed",
           metadata := some (.completion "done" ((none : Option (List String)).getD [])
             none),
           created_at := 7 }] ∧
     (tc_report_completion store_c3 task_c3.id "done" none none 7).2 =
      .ok ("Task completed: " ++ "done".take 100)) :=
  ⟨rfl, rfl,
    (C6_report_completion_contract store_c3 task_c3 "done" none none 7 rfl).1 rfl⟩

/-! Claim C4. -/

/-- C4 (amended): `pending_tasks_with_met_deps` returns exactly the
project's tasks in status `pending` whose every dependency edge that
resolves to a stored task points at a `completed` task, but the list is
sorted by the task's own sequence number alone — the phase sequence is not
consulted. -/
theorem C4_pending_query_order (s : Store) (project_id : String) :
    (∀ t, t ∈ get_pending_tasks_with_met_deps s project_id ↔
      (t ∈ s.tasks ∧ t.project_id = project_id ∧ t.status = .pending ∧
        ∀ td ∈ s.task_dependencies, td.task_id = t.id →
          ∀ dep ∈ s.tasks, dep.id = td.depends_on_id → dep.status = .completed)) ∧
    (get_pending_tasks_with_met_deps s project_id).Pairwise
      (fun a b => a.sequence ≤ b.sequence) := by
  constructor
  · intro t
    unfold get_pending_tasks_with_met_deps
    rw [mem_sortByKey, List.mem_filter]
    constructor
    · rintro ⟨hmem, hcond⟩
      unfold pending_with_met_deps_pred at hcond
      rw [Bool.and_eq_true, Bool.and_eq_true] at hcond
      obtain ⟨⟨hpid, hpending⟩, hdeps⟩ := hcond
      refine ⟨hmem, by simpa using hpid, by simpa using hpending, ?_⟩
      intro td htd hid dep hdep hdid
      by_contra hne
      rw [Bool.not_eq_true'] at hdeps
      have hany : s.task_dependencies.any (fun td =>
          td.task_id == t.id && s.tasks.any
            (fun dep => dep.id == td.depends_on_id &&
              dep.status != TaskStatus.completed)) = true := by
        rw [List.any_eq_true]
        refine ⟨td, htd, ?_⟩
        rw [Bool.and_eq_true]
        refine ⟨by simpa using hid, ?_⟩
        rw [List.any_eq_true]
        refine ⟨dep, hdep, ?_⟩
        rw [Bool.and_eq_true]
        exact ⟨by simpa using hdid, by simpa using hne⟩
      rw [hany] at hdeps
      cases hdeps
    · rintro ⟨hmem, hpid, hpending, hdeps⟩
      refine ⟨hmem, ?_⟩
      unfold pending_with_met_deps_pred
      rw [Bool.and_eq_true, Bool.and_eq_true]
      refine ⟨⟨by simpa using hpid, by simpa using hpending⟩, ?_⟩
      rw [Bool.not_eq_true', List.any_eq_false]
      intro td htd
      by_cases hid : td.task_id = t.id
      · have hinner : (s.tasks.any (fun dep => dep.id == td.depends_on_id &&
            dep.status != TaskStatus.completed)) = false := by
          rw [List.any_eq_false]
          intro dep hdep
          by_cases hdid : dep.id = td.depends_on_id
          · have hc := hdeps td htd hid dep hdep hdid
            have h1 : (dep.status != TaskStatus.completed) = false := by
              simpa using hc
            rw [h1, Bool.and_false]
            simp
          · have h1 : (dep.id == td.depends_on_id) = false := by
              simpa using hdid
            rw [h1, Bool.false_and]
            simp
        rw [hinner, Bool.and_false]
        simp
      · have h1 : (td.task_id == t.id) = false := by
          simpa using hid
        rw [h1, Bool.false_and]
        simp
  · exact pairwise_sortByKey _ _

/-- C4 counterexample: task `tA` sits in the phase with sequence 1 and has
task sequence 5; `tB` sits in the phase with sequence 2 and has task
sequence 2; both are pending with no dependencies, yet the query returns
`tB` before `tA` (ordering by task sequence alone), where the claim
requires `tA` first. -/
theorem C4_counterexample :
    (get_pending_tasks_with_met_deps store_c4 "p1").map Task.id = ["tB", "tA"] ∧
    ((store_c4.phases.find? (fun p => p.id == task_c4a.phase_id)).map Phase.sequence,
     (store_c4.phases.find? (fun p => p.id == task_c4b.phase_id)).map Phase.sequence)
      = (some 1, some 2) ∧
    task_c4b.sequence < task_c4a.sequence :=
  ⟨rfl, rfl, by decide⟩

/-! Claim C10. -/

theorem pyGet_eq_get {α : Type} (l : List α) (i : Int) (k : Nat) (hk : k < l.length)
    (hik : i = (k : Int)) : pyGet l i = some (l.get ⟨k, hk⟩) := by
  subst hik
  unfold pyGet
  have h0 : ¬ ((k : Int) < 0) := by omega
  simp only [h0, if_false]
  rw [dif_pos ⟨by omega, by exact_mod_cast hk⟩]
  rfl

/-- C10: `create_phase` inserts and commits the row unconditionally, and
returns the newly created phase whenever the project's phase sequences
after insertion are exactly `1..N` (the element at index `sequence - 1` of
the phases ordered by sequence); with a sparse sequence — the only phase
of a project created with sequence 3 — the row is committed but the call
raises `IndexError` instead of returning the phase. -/
theorem C10_create_phase_dense_only (s : Store) (id pid : String) (seq : Int)
    (name : String) (desc : Option String) (status : PhaseStatus) (now : Int) :
    ((create_phase s id pid seq name desc status now).1.phases =
      s.phases ++ [phase_row id pid seq name desc status now] ∧
     ((∀ (k : Nat) (hk : k < (get_phases_by_project
          (create_phase s id pid seq name desc status now).1 pid).length),
        ((get_phases_by_project (create_phase s id pid seq name desc status now).1
          pid).get ⟨k, hk⟩).sequence = (k : Int) + 1) →
      (create_phase s id pid seq name desc status now).2 =
        .ok (phase_row id pid seq name desc status now))) ∧
    ((create_phase store_c10 "ph9" "p1" 3 "late" none .pending 7).1.phases =
      store_c10.phases ++ [phase_row "ph9" "p1" 3 "late" none .pending 7] ∧
     (create_phase store_c10 "ph9" "p1" 3 "late" none .pending 7).2 =
      .error .index_error) := by
  refine ⟨⟨rfl, ?_⟩, rfl, rfl⟩
  intro hdense
  have hmem : phase_row id pid seq name desc status now ∈
      get_phases_by_project (create_phase s id pid seq name desc status now).1 pid := by
    unfold get_phases_by_project
    rw [mem_sortByKey, List.mem_filter]
    refine ⟨?_, ?_⟩
    · show phase_row id pid seq name desc status now ∈ s.phases ++ [_]
      exact List.mem_append_right _ (List.mem_singleton.mpr rfl)
    · show (pid == pid) = true
      simp
  obtain ⟨⟨k, hk⟩, hgetk⟩ := List.mem_iff_get.mp hmem
  have hseqk := hdense k hk
  rw [hgetk] at hseqk
  have hseq_eq : seq = (k : Int) + 1 := hseqk
  have hpy : pyGet (get_phases_by_project
      (create_phase s id pid seq name desc status now).1 pid) (seq - 1) =
      some (phase_row id pid seq name desc status now) := by
    rw [pyGet_eq_get _ _ k hk (by omega), hgetk]
  show (match pyGet (get_phases_by_project
      (create_phase s id pid seq name desc status now).1 pid) (seq - 1) with
    | some p => Except.ok p
    | none => Except.error PyErr.index_error) = _
  rw [hpy]

/-- C10 witness: creating the only phase of a project with sequence 1
(dense 1..1 after insertion) commits the row and returns the created
phase. -/
theorem C10_witness :
    (create_phase store_c10 "phA" "p1" 1 "First" none .pending 3).1.phases =
      store_c10.phases ++ [phase_row "phA" "p1" 1 "First" none .pending 3] ∧
    (create_phase store_c10 "phA" "p1" 1 "First" none .pending 3).2 =
      .ok (phase_row "phA" "p1" 1 "First" none .pending 3) := by
  refine ⟨(C10_create_phase_dense_only store_c10 "phA" "p1" 1 "First" none
    .pending 3).1.1, (C10_create_phase_dense_only store_c10 "phA" "p1" 1 "First" none
    .pending 3).1.2 ?_⟩
  intro k hk
  have hlen : (get_phases_by_project
      (create_phase store_c10 "phA" "p1" 1 "First" none .pending 3).1 "p1").length
      = 1 := rfl
  have hk1 : k < 1 := hlen ▸ hk
  have hk0 : k = 0 := by omega
  subst hk0
  show (1 : Int) = ((0 : Nat) : Int) + 1
  decide

/-! Claim C7. -/

theorem find_session_insert_self (s : Store) (row : Session) (sid : String)
    (hrow : row.id = sid) (hfresh : ∀ x ∈ s.sessions, x.id ≠ sid) :
    (s.sessions ++ [row]).find? (fun x => x.id == sid) = some row := by
  have hb : ∀ y ∈ s.sessions, ((fun x : Session => x.id) y == sid) = false :=
    fun y hy => by simpa using hfresh y hy
  have h := find?_append_fresh (fun x : Session => x.id) sid row s.sessions hb
  rw [if_pos (show ((fun x : Session => x.id) row == sid) = true by simpa using hrow)]
    at h
  exact h

theorem find_session_map (s : Store) (sid : String) (g : Session → Session)
    (hg : ∀ x, (g x).id = x.id) :
    (map_session_rows s sid g).sessions.find? (fun x => x.id == sid) =
      (s.sessions.find? (fun x => x.id == sid)).map g :=
  find?_map_update_pres (fun x : Session => x.id) sid g hg s.sessions

theorem sessions_by_task_insert_ne_nil (s : Store) (row : Session) (tid : String)
    (hrow : row.task_id = tid) :
    get_sessions_by_task { s with sessions := s.sessions ++ [row] } tid ≠ [] := by
  intro hnil
  have hmem : row ∈ get_sessions_by_task { s with sessions := s.sessions ++ [row] }
      tid := by
    unfold get_sessions_by_task
    rw [mem_sortByKey, List.mem_filter]
    exact ⟨List.mem_append_right _ (List.mem_singleton.mpr rfl), by simpa using hrow⟩
  rw [hnil] at hmem
  cases hmem

theorem spawn_ok (s : Store) (active : List (String × String)) (sid : String)
    (task : Task) (bp pdir : String) (now : Int) :
    ∃ sess, spawn s active sid task bp pdir now =
      .ok (update_session_started (update_session_status
            { s with sessions := s.sessions ++
              [session_row sid task.id task.project_id
                (task_type_to_session_type task.task_type)
                (some (allocate_pane task.task_type)) none .pending
                (some (pdir ++ "/.tc/logs/session-" ++ sid ++ ".log")) now] }
            sid .running) sid 0 now,
           active ++ [(sid, allocate_pane task.task_type)], sess) := by
  have hne := sessions_by_task_insert_ne_nil s
    (session_row sid task.id task.project_id
      (task_type_to_session_type task.task_type)
      (some (allocate_pane task.task_type)) none .pending
      (some (pdir ++ "/.tc/logs/session-" ++ sid ++ ".log")) now) task.id rfl
  obtain ⟨hd, tl, hcons⟩ := List.exists_cons_of_ne_nil hne
  refine ⟨hd, ?_⟩
  unfold spawn spawn_steps create_session
  dsimp only
  rw [hcons]
  rfl

theorem find?_session_append (l : List Session) (x : Session) (sid : String)
    (h : ∀ y ∈ l, y.id ≠ sid) :
    (l ++ [x]).find? (fun y => y.id == sid) =
      if x.id == sid then some x else none :=
  find?_append_fresh (fun y => y.id) sid x l (fun y hy => by simpa using h y hy)

theorem find?_session_mapped (l : List Session) (sid : String) (g : Session → Session)
    (hg : ∀ x, (g x).id = x.id) :
    (l.map (fun x => if x.id == sid then g x else x)).find? (fun x => x.id == sid) =
      (l.find? (fun x => x.id == sid)).map g :=
  find?_map_update_pres (fun x => x.id) sid g hg l

theorem spawn_history_of_fresh (s : Store) (sid : String) (task : Task)
    (pdir : String) (now : Int) (hfresh : ∀ x ∈ s.sessions, x.id ≠ sid) :
    spawn_status_history s sid task pdir now =
      [some .pending, some .running, some .running] := by
  have e0 : (s.sessions ++ [session_row sid task.id task.project_id
      (task_type_to_session_type task.task_type)
      (some (allocate_pane task.task_type)) none SessionStatus.pending
      (some (pdir ++ "/.tc/logs/session-" ++ sid ++ ".log")) now]).find? (fun x => x.id == sid) =
      some (session_row sid task.id task.project_id
      (task_type_to_session_type task.task_type)
      (some (allocate_pane task.task_type)) none SessionStatus.pending
      (some (pdir ++ "/.tc/logs/session-" ++ sid ++ ".log")) now) := by
    rw [find?_session_append _ _ _ hfresh, if_pos]
    show ((session_row sid task.id task.project_id
      (task_type_to_session_type task.task_type)
      (some (allocate_pane task.task_type)) none SessionStatus.pending
      (some (pdir ++ "/.tc/logs/session-" ++ sid ++ ".log")) now).id == sid) = true
    simp [session_row]
  have e1 : ((s.sessions ++ [session_row sid task.id task.project_id
      (task_type_to_session_type task.task_type)
      (some (allocate_pane task.task_type)) none SessionStatus.pending
      (some (pdir ++ "/.tc/logs/session-" ++ sid ++ ".log")) now]).map
      (fun x => if x.id == sid then { x with status := SessionStatus.running }
        else x)).find? (fun x => x.id == sid) =
      some { (session_row sid task.id task.project_id
      (task_type_to_session_type task.task_type)
      (some (allocate_pane task.task_type)) none SessionStatus.pending
      (some (pdir ++ "/.tc/logs/session-" ++ sid ++ ".log")) now) with status := SessionStatus.running } := by
    rw [find?_session_mapped _ sid
      (fun x => { x with status := SessionStatus.running }) (fun x => rfl), e0]
    rfl
  have e2 : (((s.sessions ++ [session_row sid task.id task.project_id
      (task_type_to_session_type task.task_type)
      (some (allocate_pane task.task_type)) none SessionStatus.pending
      (some (pdir ++ "/.tc/logs/session-" ++ sid ++ ".log")) now]).map
      (fun x => if x.id == sid then { x with status := SessionStatus.running }
        else x)).map
      (fun x => if x.id == sid then { x with status := SessionStatus.running, started_at := some now, pid := some 0 } else x)).find? (fun x => x.id == sid) =
      some ({ (session_row sid task.id task.project_id
      (task_type_to_session_type task.task_type)
      (some (allocate_pane task.task_type)) none SessionStatus.pending
      (some (pdir ++ "/.tc/logs/session-" ++ sid ++ ".log")) now) with status := SessionStatus.running, started_at := some now, pid := some 0 }) := by
    rw [find?_session_mapped _ sid
      (fun x => { x with status := SessionStatus.running, started_at := some now, pid := some 0 })
      (fun x => rfl), e1]
    rfl
  unfold spawn_status_history spawn_steps create_session session_status_of
    update_session_status update_session_started map_session_rows
  dsimp only
  rw [e0, e1, e2]
  rfl

theorem dispatch_sets_running (st : EngineState) (task : Task) (now : Int)
    (hq : task.status = .queued) (hfind : st.store.find_task task.id = some task) :
    ∃ st', dispatch_task st task now = .ok st' ∧
      st'.store.find_task task.id =
        some { task with status := .running, started_at := some now } := by
  have hupd := update_task_status_found .running now hfind
  have hfind2 : (map_task_rows st.store task.id
      (task_status_row_update .running now)).find_task task.id =
      some (task_status_row_update TaskStatus.running now task) := by
    rw [find_task_map_rows _ _ _ (task_status_row_update_id _ _), hfind]
    rfl
  obtain ⟨sess, hsp⟩ := spawn_ok
    (map_task_rows st.store task.id (task_status_row_update TaskStatus.running now))
    st.active (uuidString st.uuid_seed)
    (task_status_row_update TaskStatus.running now task)
    (task.brief_path.getD (st.project_dir ++ "/.tc/briefs/" ++ task.id ++ "-brief.md"))
    st.project_dir now
  have hfind3 : ∀ s2 : Store, s2.tasks =
      (map_task_rows st.store task.id
        (task_status_row_update TaskStatus.running now)).tasks →
      s2.find_task task.id =
        some { task with status := .running, started_at := some now } := by
    intro s2 hts
    show s2.tasks.find? (fun t => t.id == task.id) = _
    rw [hts]
    show (map_task_rows st.store task.id
      (task_status_row_update TaskStatus.running now)).find_task task.id = _
    rw [hfind2]
    rfl
  by_cases hfs : fs_exists st.fs (task.brief_path.getD
      (st.project_dir ++ "/.tc/briefs/" ++ task.id ++ "-brief.md")) = true
  · apply Exists.intro
    refine ⟨?_, ?_⟩
    · unfold dispatch_task
      rw [hq]
      try dsimp only
      simp only [except_pure_bind]
      try dsimp only
      rw [if_neg (by decide)]
      try dsimp only
      rw [hupd]
      simp only [except_ok_bind]
      try dsimp only
      rw [if_pos hfs]
      try dsimp only
      rw [get_task_found hfind2]
      simp only [except_ok_bind]
      rw [hsp]
      simp only [except_ok_bind]
      rfl
    · exact hfind3 _ rfl
  · apply Exists.intro
    refine ⟨?_, ?_⟩
    · unfold dispatch_task
      rw [hq]
      try dsimp only
      simp only [except_pure_bind]
      try dsimp only
      rw [if_neg (by decide)]
      try dsimp only
      rw [hupd]
      simp only [except_ok_bind]
      try dsimp only
      rw [if_neg hfs]
      try dsimp only
      rw [get_task_found hfind2]
      simp only [except_ok_bind]
      rw [hsp]
      simp only [except_ok_bind]
      rfl
    · exact hfind3 _ rfl

/-- C7 (amended): `spawn` creates the session in status `pending` and
moves it directly to `running` — the stored status after the three session
writes is `pending`, `running`, `running`, with no observable `starting`
state — and `spawn` never touches the task; the dispatched task, already
`queued`, is transitioned to `running` by the engine's `_dispatch_task`
before it calls `spawn`. -/
theorem C7_spawn_skips_starting (s : Store) (active : List (String × String))
    (sid : String) (task : Task) (bp pdir : String) (now : Int)
    (hfresh : ∀ x ∈ s.sessions, x.id ≠ sid) :
    spawn_status_history s sid task pdir now =
      [some .pending, some .running, some .running] ∧
    (∃ s' a' sess, spawn s active sid task bp pdir now = .ok (s', a', sess) ∧
      s'.tasks = s.tasks ∧
      a' = active ++ [(sid, allocate_pane task.task_type)]) ∧
    (∀ (st : EngineState) (task' : Task) (now' : Int),
      task'.status = .queued → st.store.find_task task'.id = some task' →
      ∃ st', dispatch_task st task' now' = .ok st' ∧
        st'.store.find_task task'.id =
          some { task' with status := .running, started_at := some now' }) := by
  refine ⟨spawn_history_of_fresh s sid task pdir now hfresh, ?_, ?_⟩
  · obtain ⟨sess, hsp⟩ := spawn_ok s active sid task bp pdir now
    exact ⟨_, _, sess, hsp, rfl, rfl⟩
  · intro st task' now' hq hfind
    obtain ⟨st', h1, h2⟩ := dispatch_sets_running st task' now' hq hfind
    exact ⟨st', h1, h2⟩

/-- C7 witness: spawning a fresh session over the fixture store yields the
status history pending, running, running, leaves the tasks untouched, and
dispatching the queued fixture task sets it running. -/
theorem C7_witness :
    (spawn_status_history store0 "sx" task0 "/tmp/p" 3 =
      [some .pending, some .running, some .running] ∧
     (∃ s' a' sess, spawn store0 [] "sx" task0 "b" "/tmp/p" 3 = .ok (s', a', sess) ∧
        s'.tasks = store0.tasks ∧
        a' = [] ++ [("sx", allocate_pane task0.task_type)]) ∧
     (∀ (st : EngineState) (task' : Task) (now' : Int),
        task'.status = .queued → st.store.find_task task'.id = some task' →
        ∃ st', dispatch_task st task' now' = .ok st' ∧
          st'.store.find_task task'.id =
            some { task' with status := .running, started_at := some now' })) ∧
    (task_c7.status = .queued ∧
     engine_c7.store.find_task task_c7.id = some task_c7 ∧
     ∃ st', dispatch_task engine_c7 task_c7 4 = .ok st' ∧
       st'.store.find_task task_c7.id =
         some { task_c7 with status := .running, started_at := some 4 }) := by
  have h := C7_spawn_skips_starting store0 [] "sx" task0 "b" "/tmp/p" 3
    (fun x hx => absurd hx (List.not_mem_nil x))
  exact ⟨h, rfl, rfl, h.2.2 engine_c7 task_c7 4 rfl rfl⟩

/-! Claim C2. -/

/-- C2 (amended): on the first session failure of a task with
`max_retries = 1` and `retry_count = 0`, the engine records the failure —
the session is marked failed, the task is marked failed, the truncated
error is stored and `retry_count` becomes 1 — but because `should_retry`
is evaluated on the task refreshed after `update_task_error` already
incremented the counter, the retry branch is not taken: the task is
transitioned `failed → paused`, the engine publishes the task-failure
`error` event and a task-`paused` event, and no `retried` event is
published (and no retry brief is produced). -/
theorem C2_first_failure_goes_to_paused (st : EngineState) (task : Task)
    (session : Session) (error : String) (now : Int)
    (hfind : st.store.find_task task.id = some task)
    (hrc : task.retry_count = 0) (hmr : task.max_retries = 1) :
    ∃ st', handle_failure st task session error now = .ok st' ∧
      st'.store.find_task task.id =
        some { task with status := .paused, retry_count := task.retry_count + 1,
                         error_context := some (error.take 2000) } ∧
      st'.published = st.published ++
        [{ event_type := .error, entity_type := "task", entity_id := task.id,
           message := "Task failed: " ++ task.name, old_value := none,
           new_value := none, metadata := none, timestamp := none },
         { event_type := .paused, entity_type := "task", entity_id := task.id,
           message := "Task paused after max retries: " ++ task.name,
           old_value := none, new_value := none, metadata := none,
           timestamp := none }] := by
  have hfind1 : (update_session_completed st.store session.id .failed 1
      now).find_task task.id = some task := hfind
  have hupd1 := update_task_status_found .failed now hfind1
  have hfind2 : (map_task_rows (update_session_completed st.store session.id .failed 1
      now) task.id (task_status_row_update .failed now)).find_task task.id =
      some (task_status_row_update TaskStatus.failed now task) := by
    rw [find_task_map_rows _ _ _ (task_status_row_update_id _ _), hfind1]
    rfl
  have hupd2 := update_task_error_found (error.take 2000) hfind2
  have hfind3 : (map_task_rows (map_task_rows (update_session_completed st.store
      session.id .failed 1 now) task.id (task_status_row_update .failed now)) task.id
      (task_error_row_update (error.take 2000))).find_task task.id =
      some (task_error_row_update (error.take 2000)
        (task_status_row_update TaskStatus.failed now task)) := by
    rw [find_task_map_rows _ _ _ (task_error_row_update_id _), hfind2]
    rfl
  have hsr : RetryPolicy.should_retry { max_retries := 1 }
      (task_error_row_update (error.take 2000)
        (task_status_row_update TaskStatus.failed now task)) = false := by
    unfold RetryPolicy.should_retry task_error_row_update task_status_row_update
    simp [hrc, hmr]
  have hfind4 : (map_task_rows (map_task_rows (map_task_rows
      (update_session_completed st.store session.id .failed 1 now) task.id
      (task_status_row_update .failed now)) task.id
      (task_error_row_update (error.take 2000))) task.id
      (task_status_row_update .paused now)).find_task task.id =
      some (task_status_row_update TaskStatus.paused now
        (task_error_row_update (error.take 2000)
          (task_status_row_update TaskStatus.failed now task))) := by
    rw [find_task_map_rows _ _ _ (task_status_row_update_id _ _), hfind3]
    rfl
  have hupd3 := update_task_status_found .paused now hfind3
  apply Exists.intro
  refine ⟨?_, ?_, ?_⟩
  · unfold handle_failure publish_engine
    try dsimp only
    rw [hupd1]
    simp only [except_ok_bind]
    try dsimp only
    rw [hupd2]
    simp only [except_ok_bind]
    try dsimp only
    rw [get_task_found hfind3]
    simp only [except_ok_bind]
    try dsimp only
    rw [hsr]
    try dsimp only
    rw [hupd3]
    simp only [except_ok_bind]
    rfl
  · show (map_task_rows (map_task_rows (map_task_rows
      (update_session_completed st.store session.id .failed 1 now) task.id
      (task_status_row_update .failed now)) task.id
      (task_error_row_update (error.take 2000))) task.id
      (task_status_row_update .paused now)).find_task task.id = _
    rw [hfind4]
    unfold task_status_row_update task_error_row_update
    simp
  · show (st.published ++ [_]) ++ [_] = _
    simp [publish_engine]

/-- C2 witness: the handler at the concrete fixture pauses the task with
`retry_count = 1` and publishes exactly the error and paused events. -/
theorem C2_witness :
    engine_c2.store.find_task task_c2.id = some task_c2 ∧
    task_c2.retry_count = 0 ∧ task_c2.max_retries = 1 ∧
    (∃ st', handle_failure engine_c2 task_c2 sess0 "boom" 9 = .ok st' ∧
      st'.store.find_task task_c2.id =
        some { task_c2 with status := .paused,
                            retry_count := task_c2.retry_count + 1,
                            error_context := some ("boom".take 2000) } ∧
      st'.published = engine_c2.published ++
        [{ event_type := .error, entity_type := "task", entity_id := task_c2.id,
           message := "Task failed: " ++ task_c2.name, old_value := none,
           new_value := none, metadata := none, timestamp := none },
         { event_type := .paused, entity_type := "task", entity_id := task_c2.id,
           message := "Task paused after max retries: " ++ task_c2.name,
           old_value := none, new_value := none, metadata := none,
           timestamp := none }]) :=
  ⟨rfl, rfl, rfl,
    C2_first_failure_goes_to_paused engine_c2 task_c2 sess0 "boom" 9 rfl rfl rfl⟩

/-- C2 counterexample: handling the first failure of the concrete task
with `max_retries = 1`, `retry_count = 0` leaves the stored task `paused`
(not `running`), with `retry_count = 1`, and the published events are
exactly `error` then `paused` — no `retried` event. -/
theorem C2_counterexample :
    (handle_failure engine_c2 task_c2 sess0 "boom" 9).map
      (fun st' => ((st'.store.find_task "t1").map Task.status,
        (st'.store.find_task "t1").map Task.retry_count,
        st'.published.map (fun e => e.event_type))) =
      .ok (some .paused, some 1, [.error, .paused]) := rfl

/-! Claim C5. -/

/-- C5 (amended): on a tick with no active sessions, no schedulable tasks,
not all tasks complete and no task running or retrying (engine not already
paused), the engine publishes a `paused` event whose message contains
"Deadlock detected" and sets its in-memory paused flag — but the project's
stored status is left unchanged: the store is not touched at all. -/
theorem C5_deadlock_does_not_pause_project (st : EngineState)
    (pc : String → SessionCheckResult) (now : Int)
    (ha : st.active = []) (hp : st.paused = false)
    (hs : has_schedulable st.store st.project_id = false)
    (hc : all_complete st.store st.project_id = false)
    (hr : get_tasks_by_status st.store st.project_id .running = [])
    (ht : get_tasks_by_status st.store st.project_id .retrying = []) :
    ∃ st', tick st pc now = .ok st' ∧ st'.store = st.store ∧ st'.paused = true ∧
      st'.published = st.published ++
        [{ event_type := .paused, entity_type := "project",
           entity_id := st.project_id,
           message := "Deadlock detected: no schedulable tasks and not all complete",
           old_value := none, new_value := none, metadata := none,
           timestamp := none }] := by
  have hpend : get_pending_tasks_with_met_deps st.store st.project_id = [] := by
    by_cases h : (get_pending_tasks_with_met_deps st.store st.project_id).isEmpty = true
    · exact List.isEmpty_iff.mp h
    · exfalso
      unfold has_schedulable at hs
      rw [if_pos (by simpa using h)] at hs
      cases hs
  have hq : get_tasks_by_status st.store st.project_id .queued = [] := by
    unfold has_schedulable at hs
    rw [if_neg (by simp [hpend])] at hs
    have : ¬ (get_tasks_by_status st.store st.project_id .queued).length > 0 := by
      simpa using hs
    have hlen : (get_tasks_by_status st.store st.project_id .queued).length = 0 := by
      omega
    exact List.length_eq_zero.mp hlen
  have hrev : next_review_task st.store st.project_id = none := by
    unfold next_review_task
    rw [hq]
    rfl
  have hcod : next_coding_task st.store st.project_id = none := by
    unfold next_coding_task
    rw [hpend]
    rfl
  have hst : ({ st with active := [] } : EngineState) = st := by
    rw [← ha]
  apply Exists.intro
  refine ⟨?_, ?_, ?_, ?_⟩
  · unfold tick check_sessions
    rw [ha]
    show (reap_results { st with active := [] } now [] >>= _) = _
    rw [hst]
    show (Except.ok st >>= _) = _
    simp only [except_ok_bind]
    try dsimp only
    rw [if_neg (by simp [hc]), if_neg (by simp [hp])]
    try dsimp only
    rw [if_pos (by simp [ha, has_active_review]), hrev]
    try dsimp only
    try simp only [except_pure_bind]
    rw [if_pos (by simp [ha, has_active_coding]), hcod]
    try dsimp only
    try simp only [except_pure_bind]
    rw [if_pos (by simp [ha, hs, hc, get_active_session_ids])]
    try dsimp only
    rw [hr, ht]
    rfl
  · rfl
  · rfl
  · rfl

/-- C5 witness: the concrete deadlocked state (one task stuck in `paused`)
makes the tick publish the deadlock event and set the flag while the store
is untouched. -/
theorem C5_witness :
    engine_c5.active = [] ∧ engine_c5.paused = false ∧
    has_schedulable engine_c5.store engine_c5.project_id = false ∧
    all_complete engine_c5.store engine_c5.project_id = false ∧
    (∃ st', tick engine_c5
        (fun _ => { exited := false, exit_code := none, stderr := "" }) 11
        = .ok st' ∧
      st'.store = engine_c5.store ∧ st'.paused = true ∧
      st'.published = engine_c5.published ++
        [{ event_type := .paused, entity_type := "project",
           entity_id := engine_c5.project_id,
           message := "Deadlock detected: no schedulable tasks and not all complete",
           old_value := none, new_value := none, metadata := none,
           timestamp := none }]) :=
  ⟨rfl, rfl, rfl, rfl,
    C5_deadlock_does_not_pause_project engine_c5
      (fun _ => { exited := false, exit_code := none, stderr := "" }) 11
      rfl rfl rfl rfl rfl rfl⟩

/-- C5 counterexample: on the concrete deadlocked tick the published event
says "Deadlock detected" and the in-memory flag flips, but the stored
project status remains `running` — the claim's "transitions the project's
stored status to paused" is false. -/
theorem C5_counterexample :
    (tick engine_c5 (fun _ => { exited := false, exit_code := none, stderr := "" })
        11).map
      (fun st' => ((st'.store.find_project "p1").map Project.status, st'.paused,
        st'.published.map (fun e => (e.event_type, e.message)))) =
      .ok (some .running, true,
        [(.paused, "Deadlock detected: no schedulable tasks and not all complete")])
      := rfl

/-! Claim C8: support lemmas. -/

theorem find?_task_append (l : List Task) (x : Task) (tid : String)
    (h : ∀ y ∈ l, y.id ≠ tid) :
    (l ++ [x]).find? (fun y => y.id == tid) =
      if x.id == tid then some x else none :=
  find?_append_fresh (fun y => y.id) tid x l (fun y hy => by simpa using h y hy)

theorem map_task_update_fresh (l : List Task) (r : Task) (tid : String)
    (g : Task → Task) (h : ∀ t ∈ l, t.id ≠ tid) :
    (l ++ [r]).map (fun t => if t.id == tid then g t else t) =
      l ++ [if r.id == tid then g r else r] :=
  map_update_fresh (fun t => t.id) tid g r l (fun y hy => by simpa using h y hy)

theorem fresh_after_map_rows (s : Store) (tid : String) (g : Task → Task)
    (hg : ∀ t, (g t).id = t.id) (key : String)
    (h : ∀ t ∈ s.tasks, t.id ≠ key) :
    ∀ t ∈ (map_task_rows s tid g).tasks, t.id ≠ key := by
  intro t ht
  rcases List.mem_map.mp ht with ⟨u, hu, rfl⟩
  by_cases hid : (u.id == tid) = true
  · simpa [hid, hg u] using h u hu
  · simpa [hid] using h u hu

theorem get_tasks_by_phase_congr (s1 s2 : Store) (pid : String)
    (h : s1.tasks = s2.tasks) :
    get_tasks_by_phase s1 pid = get_tasks_by_phase s2 pid := by
  unfold get_tasks_by_phase
  rw [h]

theorem phase_seqs_map_rows (s : Store) (tid : String) (g : Task → Task)
    (hg_ph : ∀ t, (g t).phase_id = t.phase_id)
    (hg_seq : ∀ t, (g t).sequence = t.sequence) (pid : String) :
    (get_tasks_by_phase (map_task_rows s tid g) pid).map (fun t => t.sequence) =
      (get_tasks_by_phase s pid).map (fun t => t.sequence) := by
  unfold get_tasks_by_phase
  show ((sortByKey _ ((s.tasks.map fun t => if t.id == tid then g t else t).filter
    _)).map fun t => t.sequence) = _
  rw [filter_map_pres (fun t => t.phase_id == pid)
    (fun t => if t.id == tid then g t else t)
    (fun t => by by_cases h : (t.id == tid) = true <;> simp [h, hg_ph t])]
  rw [sortByKey_map_pres (fun t => t.sequence)
    (fun t => if t.id == tid then g t else t)
    (fun t => by by_cases h : (t.id == tid) = true <;> simp [h, hg_seq t])]
  rw [List.map_map]
  refine List.map_congr_left ?_
  intro t ht
  by_cases h : t.id = tid <;> simp [h, hg_seq t]

theorem phase_seqs_append_mem (s : Store) (r : Task) (pid : String)
    (hph : r.phase_id = pid) (x : Int) :
    x ∈ ((get_tasks_by_phase { s with tasks := s.tasks ++ [r] } pid).map
        (fun t => t.sequence)) ↔
      (x ∈ (get_tasks_by_phase s pid).map (fun t => t.sequence) ∨
        x = r.sequence) := by
  unfold get_tasks_by_phase
  constructor
  · intro hx
    rcases List.mem_map.mp hx with ⟨t, ht, rfl⟩
    rcases List.mem_filter.mp ((mem_sortByKey _ _ t).mp ht) with ⟨hmem, hpid⟩
    rcases List.mem_append.mp hmem with h | h
    · exact Or.inl (List.mem_map.mpr ⟨t, (mem_sortByKey _ _ t).mpr
        (List.mem_filter.mpr ⟨h, hpid⟩), rfl⟩)
    · rcases List.mem_singleton.mp h with rfl
      exact Or.inr rfl
  · intro hx
    rcases hx with hx | rfl
    · rcases List.mem_map.mp hx with ⟨t, ht, rfl⟩
      rcases List.mem_filter.mp ((mem_sortByKey _ _ t).mp ht) with ⟨hmem, hpid⟩
      exact List.mem_map.mpr ⟨t, (mem_sortByKey _ _ t).mpr
        (List.mem_filter.mpr ⟨List.mem_append_left _ hmem, hpid⟩), rfl⟩
    · exact List.mem_map.mpr ⟨r, (mem_sortByKey _ _ r).mpr
        (List.mem_filter.mpr ⟨List.mem_append_right _ (List.mem_singleton.mpr rfl),
          by simpa using hph⟩), rfl⟩

/-- The task that `schedule_review` leaves in the store (created at
`max(phase sequences) + 1`, queued). -/
def review_task_row (s : Store) (rid : String) (ct : Task) (now : Int) : Task :=
  { id := rid, phase_id := ct.phase_id, project_id := ct.project_id,
    sequence := pymax ((get_tasks_by_phase s ct.phase_id).map
      (fun t => t.sequence)) 0 + 1,
    name := "Review: " ++ ct.name,
    description := some ("Code review for: " ++ ct.name), task_type := .review,
    brief_path := none, status := .queued, retry_count := 0, max_retries := 1,
    error_context := none, started_at := none, completed_at := none,
    created_at := now }

/-- The task that `schedule_security_review` leaves in the store. -/
def security_review_task_row (s : Store) (sid : String) (ct : Task)
    (concern : String) (now : Int) : Task :=
  { id := sid, phase_id := ct.phase_id, project_id := ct.project_id,
    sequence := pymax ((get_tasks_by_phase s ct.phase_id).map
      (fun t => t.sequence)) 0 + 1,
    name := "Security Review: " ++ ct.name,
    description := some ("Security review for: " ++ ct.name ++ " (concern: " ++
      concern ++ ")"),
    task_type := .security_review, brief_path := none, status := .queued,
    retry_count := 0, max_retries := 1, error_context := none,
    started_at := none, completed_at := none, created_at := now }

theorem create_task_spec (s : Store) (id phase_id project_id : String)
    (sequence : Int) (name : String) (task_type : TaskType)
    (description brief_path : Option String) (status : TaskStatus)
    (retry_count max_retries : Int) (now : Int)
    (hfresh : ∀ t ∈ s.tasks, t.id ≠ id) :
    create_task s id phase_id project_id sequence name task_type description
        brief_path status retry_count max_retries now = Except.ok
      ({ s with tasks := s.tasks ++ [create_task_row id phase_id project_id
          sequence name task_type description brief_path status retry_count
          max_retries now] },
       create_task_row id phase_id project_id sequence name task_type
          description brief_path status retry_count max_retries now) := by
  unfold create_task get_task Store.find_task
  dsimp only
  rw [find?_task_append _ _ _ hfresh, if_pos (by simp [create_task_row])]
  rfl

/-- The (still pending) row that `schedule_review` inserts. -/
def review_pending_row (s : Store) (rid : String) (ct : Task) (now : Int) : Task :=
  create_task_row rid ct.phase_id ct.project_id
    (pymax ((get_tasks_by_phase s ct.phase_id).map (fun t => t.sequence)) 0 + 1)
    ("Review: " ++ ct.name) TaskType.review
    (some ("Code review for: " ++ ct.name)) none TaskStatus.pending 0 1 now

/-- The (still pending) row that `schedule_security_review` inserts. -/
def security_pending_row (s : Store) (sid : String) (ct : Task) (concern : String)
    (now : Int) : Task :=
  create_task_row sid ct.phase_id ct.project_id
    (pymax ((get_tasks_by_phase s ct.phase_id).map (fun t => t.sequence)) 0 + 1)
    ("Security Review: " ++ ct.name) TaskType.security_review
    (some ("Security review for: " ++ ct.name ++ " (concern: " ++ concern ++ ")"))
    none TaskStatus.pending 0 1 now

theorem create_task_spec_review (s : Store) (rid : String) (ct : Task) (now : Int)
    (hfresh : ∀ t ∈ s.tasks, t.id ≠ rid) :
    create_task s rid ct.phase_id ct.project_id
        (pymax ((get_tasks_by_phase s ct.phase_id).map (fun t => t.sequence)) 0 + 1)
        ("Review: " ++ ct.name) TaskType.review
        (some ("Code review for: " ++ ct.name)) none TaskStatus.pending 0 1 now =
      Except.ok ({ s with tasks := s.tasks ++ [review_pending_row s rid ct now] },
        review_pending_row s rid ct now) :=
  create_task_spec s rid ct.phase_id ct.project_id _ _ _ _ _ _ _ _ _ hfresh

theorem create_task_spec_security (s : Store) (sid : String) (ct : Task)
    (concern : String) (now : Int) (hfresh : ∀ t ∈ s.tasks, t.id ≠ sid) :
    create_task s sid ct.phase_id ct.project_id
        (pymax ((get_tasks_by_phase s ct.phase_id).map (fun t => t.sequence)) 0 + 1)
        ("Security Review: " ++ ct.name) TaskType.security_review
        (some ("Security review for: " ++ ct.name ++ " (concern: " ++ concern ++ ")"))
        none TaskStatus.pending 0 1 now =
      Except.ok
        ({ s with tasks := s.tasks ++ [security_pending_row s sid ct concern now] },
          security_pending_row s sid ct concern now) :=
  create_task_spec s sid ct.phase_id ct.project_id _ _ _ _ _ _ _ _ _ hfresh

theorem review_pending_queued (s : Store) (rid : String) (ct : Task) (now : Int) :
    task_status_row_update TaskStatus.queued now (review_pending_row s rid ct now) =
      review_task_row s rid ct now := rfl

theorem security_pending_queued (s : Store) (sid : String) (ct : Task)
    (concern : String) (now : Int) :
    task_status_row_update TaskStatus.queued now
        (security_pending_row s sid ct concern now) =
      security_review_task_row s sid ct concern now := rfl

/-- The event row logged by `schedule_review`. -/
def review_event_row (s : Store) (rid : String) (ct : Task) (now : Int) : Event :=
  { id := s.next_event_id, project_id := ct.project_id, entity_type := "task",
    entity_id := rid, event_type := EventType.review_scheduled, old_value := none,
    new_value := some ("Review scheduled for " ++ ct.name), metadata := none,
    created_at := now }

/-- The event row logged by `schedule_security_review`. -/
def security_event_row (s : Store) (sid : String) (ct : Task) (now : Int) : Event :=
  { id := s.next_event_id, project_id := ct.project_id, entity_type := "task",
    entity_id := sid, event_type := EventType.review_scheduled, old_value := none,
    new_value := some ("Security review scheduled for " ++ ct.name),
    metadata := none, created_at := now }

theorem get_task_pair_step (s : Store) (tid : String) (t : Task)
    (h : s.tasks.find? (fun y => y.id == tid) = some t) :
    (get_task s tid >>= fun u => Except.ok (s, u)) = Except.ok (s, t) := by
  unfold get_task Store.find_task
  rw [h]
  rfl

theorem schedule_review_spec (s : Store) (rid : String) (ct : Task)
    (files : List String) (now : Int) (hfresh : ∀ t ∈ s.tasks, t.id ≠ rid) :
    schedule_review s rid ct files now = Except.ok
      ({ s with
          tasks := s.tasks ++ [review_task_row s rid ct now],
          task_dependencies := s.task_dependencies ++
            [{ task_id := rid, depends_on_id := ct.id }],
          events := s.events ++ [review_event_row s rid ct now],
          next_event_id := s.next_event_id + 1 },
        review_task_row s rid ct now) := by
  have hfind2 : Store.find_task
      { s with
          tasks := s.tasks ++ [review_pending_row s rid ct now],
          task_dependencies := s.task_dependencies ++
            [{ task_id := rid, depends_on_id := ct.id }] } rid =
      some (review_pending_row s rid ct now) := by
    unfold Store.find_task
    dsimp only
    rw [find?_task_append _ _ _ hfresh,
      if_pos (by simp [review_pending_row, create_task_row])]
  unfold schedule_review add_task_dependency create_event
  dsimp only
  rw [create_task_spec_review s rid ct now hfresh]
  simp only [except_ok_bind]
  try dsimp only
  rw [update_task_status_found TaskStatus.queued now hfind2]
  simp only [except_ok_bind]
  try dsimp only
  unfold map_task_rows
  dsimp only
  rw [map_task_update_fresh s.tasks (review_pending_row s rid ct now) rid
    (task_status_row_update TaskStatus.queued now) hfresh]
  rw [if_pos (by simp [review_pending_row, create_task_row] :
    ((review_pending_row s rid ct now).id == rid) = true)]
  rw [review_pending_queued]
  refine get_task_pair_step _ _ _ ?_
  dsimp only
  rw [find?_task_append _ _ _ hfresh, if_pos (by simp [review_task_row])]

theorem schedule_security_review_spec (s : Store) (sid : String) (ct : Task)
    (files : List String) (concern : String) (now : Int)
    (hfresh : ∀ t ∈ s.tasks, t.id ≠ sid) :
    schedule_security_review s sid ct files concern now = Except.ok
      ({ s with
          tasks := s.tasks ++ [security_review_task_row s sid ct concern now],
          task_dependencies := s.task_dependencies ++
            [{ task_id := sid, depends_on_id := ct.id }],
          events := s.events ++ [security_event_row s sid ct now],
          next_event_id := s.next_event_id + 1 },
        security_review_task_row s sid ct concern now) := by
  have hfind2 : Store.find_task
      { s with
          tasks := s.tasks ++ [security_pending_row s sid ct concern now],
          task_dependencies := s.task_dependencies ++
            [{ task_id := sid, depends_on_id := ct.id }] } sid =
      some (security_pending_row s sid ct concern now) := by
    unfold Store.find_task
    dsimp only
    rw [find?_task_append _ _ _ hfresh,
      if_pos (by simp [security_pending_row, create_task_row])]
  unfold schedule_security_review add_task_dependency create_event
  dsimp only
  rw [create_task_spec_security s sid ct concern now hfresh]
  simp only [except_ok_bind]
  try dsimp only
  rw [update_task_status_found TaskStatus.queued now hfind2]
  simp only [except_ok_bind]
  try dsimp only
  unfold map_task_rows
  dsimp only
  rw [map_task_update_fresh s.tasks (security_pending_row s sid ct concern now) sid
    (task_status_row_update TaskStatus.queued now) hfresh]
  rw [if_pos (by simp [security_pending_row, create_task_row] :
    ((security_pending_row s sid ct concern now).id == sid) = true)]
  rw [security_pending_queued]
  refine get_task_pair_step _ _ _ ?_
  dsimp only
  rw [find?_task_append _ _ _ hfresh,
    if_pos (by simp [security_review_task_row])]

theorem check_phase_completion_store_tasks (st : EngineState) (task : Task)
    (now : Int) :
    (check_phase_completion st task now).store.tasks = st.store.tasks := by
  unfold check_phase_completion publish_engine update_phase_status
  dsimp only
  split <;> rfl

theorem check_phase_completion_store_events (st : EngineState) (task : Task)
    (now : Int) :
    (check_phase_completion st task now).store.events = st.store.events := by
  unfold check_phase_completion publish_engine update_phase_status
  dsimp only
  split <;> rfl

theorem check_phase_completion_store_deps (st : EngineState) (task : Task)
    (now : Int) :
    (check_phase_completion st task now).store.task_dependencies =
      st.store.task_dependencies := by
  unfold check_phase_completion publish_engine update_phase_status
  dsimp only
  split <;> rfl

/-- C8: when the engine handles the successful completion of a coding
task, the Review Coordinator inserts a review task in the same phase with
sequence `max(existing sequences in the phase) + 1`, a dependency edge on
the completed task and stored status `queued`, and logs one
`review_scheduled` event; when the task is security-relevant it
additionally inserts a `security_review` task by the same recomputed rule
(so at `max + 2`, the review task now being the phase maximum) with its
own dependency edge and a second `review_scheduled` event. -/
theorem C8_completion_schedules_reviews (st : EngineState) (rid sid : String)
    (task : Task) (session : Session) (now : Int)
    (hfind : st.store.find_task task.id = some task)
    (hcoding : task.task_type = TaskType.coding)
    (hfr : ∀ t ∈ st.store.tasks, t.id ≠ rid)
    (hfs : ∀ t ∈ st.store.tasks, t.id ≠ sid)
    (hne : rid ≠ sid) :
    ∃ st', handle_completion st rid sid task session now = Except.ok st' ∧
      ((is_security_relevant task = true →
        ∃ r sr e1 e2,
          st'.store.tasks = st.store.tasks.map (fun t =>
              if t.id == task.id then task_status_row_update TaskStatus.completed now t
              else t) ++ [r, sr] ∧
          r.id = rid ∧ r.phase_id = task.phase_id ∧
          r.task_type = TaskType.review ∧ r.status = TaskStatus.queued ∧
          r.sequence = pymax ((get_tasks_by_phase st.store task.phase_id).map
            (fun t => t.sequence)) 0 + 1 ∧
          sr.id = sid ∧ sr.phase_id = task.phase_id ∧
          sr.task_type = TaskType.security_review ∧ sr.status = TaskStatus.queued ∧
          sr.sequence = pymax ((get_tasks_by_phase st.store task.phase_id).map
            (fun t => t.sequence)) 0 + 2 ∧
          { task_id := rid, depends_on_id := task.id } ∈ st'.store.task_dependencies ∧
          { task_id := sid, depends_on_id := task.id } ∈ st'.store.task_dependencies ∧
          st'.store.events = st.store.events ++ [e1, e2] ∧
          e1.event_type = EventType.review_scheduled ∧ e1.entity_id = rid ∧
          e2.event_type = EventType.review_scheduled ∧ e2.entity_id = sid) ∧
       (is_security_relevant task = false →
        ∃ r e1,
          st'.store.tasks = st.store.tasks.map (fun t =>
              if t.id == task.id then task_status_row_update TaskStatus.completed now t
              else t) ++ [r] ∧
          r.id = rid ∧ r.phase_id = task.phase_id ∧
          r.task_type = TaskType.review ∧ r.status = TaskStatus.queued ∧
          r.sequence = pymax ((get_tasks_by_phase st.store task.phase_id).map
            (fun t => t.sequence)) 0 + 1 ∧
          { task_id := rid, depends_on_id := task.id } ∈ st'.store.task_dependencies ∧
          st'.store.events = st.store.events ++ [e1] ∧
          e1.event_type = EventType.review_scheduled ∧ e1.entity_id = rid)) := by
  have hfind1 : (update_session_completed st.store session.id SessionStatus.completed 0 now).find_task task.id = some task := hfind
  have hupd1 := update_task_status_found TaskStatus.completed now hfind1
  have hcond : (task.task_type == TaskType.coding) = true := by simp [hcoding]
  have hcpcT : (check_phase_completion (publish_engine { st with store := (map_task_rows (update_session_completed st.store session.id SessionStatus.completed 0 now) task.id
      (task_status_row_update TaskStatus.completed now)) }
      EventType.status_changed "task" task.id ("Task completed: " ++ task.name)) task now).store.tasks =
      st.store.tasks.map (fun t =>
              if t.id == task.id then task_status_row_update TaskStatus.completed now t
              else t) := by
    rw [check_phase_completion_store_tasks]
    rfl
  have hcpcE : (check_phase_completion (publish_engine { st with store := (map_task_rows (update_session_completed st.store session.id SessionStatus.completed 0 now) task.id
      (task_status_row_update TaskStatus.completed now)) }
      EventType.status_changed "task" task.id ("Task completed: " ++ task.name)) task now).store.events = st.store.events := by
    rw [check_phase_completion_store_events]
    rfl
  have hfrM : ∀ t ∈ (map_task_rows (update_session_completed st.store session.id SessionStatus.completed 0 now) task.id
      (task_status_row_update TaskStatus.completed now)).tasks, t.id ≠ rid :=
    fresh_after_map_rows (update_session_completed st.store session.id SessionStatus.completed 0 now) task.id _
      (task_status_row_update_id TaskStatus.completed now) rid hfr
  have hfsM : ∀ t ∈ (map_task_rows (update_session_completed st.store session.id SessionStatus.completed 0 now) task.id
      (task_status_row_update TaskStatus.completed now)).tasks, t.id ≠ sid :=
    fresh_after_map_rows (update_session_completed st.store session.id SessionStatus.completed 0 now) task.id _
      (task_status_row_update_id TaskStatus.completed now) sid hfs
  have hfr2 : ∀ t ∈ (check_phase_completion (publish_engine { st with store := (map_task_rows (update_session_completed st.store session.id SessionStatus.completed 0 now) task.id
      (task_status_row_update TaskStatus.completed now)) }
      EventType.status_changed "task" task.id ("Task completed: " ++ task.name)) task now).store.tasks, t.id ≠ rid := by
    rw [check_phase_completion_store_tasks]
    exact hfrM
  have hfs2 : ∀ t ∈ (check_phase_completion (publish_engine { st with store := (map_task_rows (update_session_completed st.store session.id SessionStatus.completed 0 now) task.id
      (task_status_row_update TaskStatus.completed now)) }
      EventType.status_changed "task" task.id ("Task completed: " ++ task.name)) task now).store.tasks, t.id ≠ sid := by
    rw [check_phase_completion_store_tasks]
    exact hfsM
  have hsched1 := schedule_review_spec (check_phase_completion (publish_engine { st with store := (map_task_rows (update_session_completed st.store session.id SessionStatus.completed 0 now) task.id
      (task_status_row_update TaskStatus.completed now)) }
      EventType.status_changed "task" task.id ("Task completed: " ++ task.name)) task now).store rid task
    (get_files_changed (check_phase_completion (publish_engine { st with store := (map_task_rows (update_session_completed st.store session.id SessionStatus.completed 0 now) task.id
      (task_status_row_update TaskStatus.completed now)) }
      EventType.status_changed "task" task.id ("Task completed: " ++ task.name)) task now).store task) now hfr2
  have hfs3 : ∀ t ∈ ({ (check_phase_completion (publish_engine { st with store := (map_task_rows (update_session_completed st.store session.id SessionStatus.completed 0 now) task.id
      (task_status_row_update TaskStatus.completed now)) }
      EventType.status_changed "task" task.id ("Task completed: " ++ task.name)) task now).store with
      tasks := (check_phase_completion (publish_engine { st with store := (map_task_rows (update_session_completed st.store session.id SessionStatus.completed 0 now) task.id
      (task_status_row_update TaskStatus.completed now)) }
      EventType.status_changed "task" task.id ("Task completed: " ++ task.name)) task now).store.tasks ++ [(review_task_row (check_phase_completion (publish_engine { st with store := (map_task_rows (update_session_completed st.store session.id SessionStatus.completed 0 now) task.id
      (task_status_row_update TaskStatus.completed now)) }
      EventType.status_changed "task" task.id ("Task completed: " ++ task.name)) task now).store rid task now)],
      task_dependencies := (check_phase_completion (publish_engine { st with store := (map_task_rows (update_session_completed st.store session.id SessionStatus.completed 0 now) task.id
      (task_status_row_update TaskStatus.completed now)) }
      EventType.status_changed "task" task.id ("Task completed: " ++ task.name)) task now).store.task_dependencies ++
        [{ task_id := rid, depends_on_id := task.id }],
      events := (check_phase_completion (publish_engine { st with store := (map_task_rows (update_session_completed st.store session.id SessionStatus.completed 0 now) task.id
      (task_status_row_update TaskStatus.completed now)) }
      EventType.status_changed "task" task.id ("Task completed: " ++ task.name)) task now).store.events ++ [review_event_row (check_phase_completion (publish_engine { st with store := (map_task_rows (update_session_completed st.store session.id SessionStatus.completed 0 now) task.id
      (task_status_row_update TaskStatus.completed now)) }
      EventType.status_changed "task" task.id ("Task completed: " ++ task.name)) task now).store rid task now],
      next_event_id := (check_phase_completion (publish_engine { st with store := (map_task_rows (update_session_completed st.store session.id SessionStatus.completed 0 now) task.id
      (task_status_row_update TaskStatus.completed now)) }
      EventType.status_changed "task" task.id ("Task completed: " ++ task.name)) task now).store.next_event_id + 1 } : Store).tasks, t.id ≠ sid := by
    dsimp only
    intro t ht
    rcases List.mem_append.mp ht with h | h
    · exact hfs2 t h
    · rcases List.mem_singleton.mp h with rfl
      exact hne
  have hsched2 := schedule_security_review_spec { (check_phase_completion (publish_engine { st with store := (map_task_rows (update_session_completed st.store session.id SessionStatus.completed 0 now) task.id
      (task_status_row_update TaskStatus.completed now)) }
      EventType.status_changed "task" task.id ("Task completed: " ++ task.name)) task now).store with
      tasks := (check_phase_completion (publish_engine { st with store := (map_task_rows (update_session_completed st.store session.id SessionStatus.completed 0 now) task.id
      (task_status_row_update TaskStatus.completed now)) }
      EventType.status_changed "task" task.id ("Task completed: " ++ task.name)) task now).store.tasks ++ [(review_task_row (check_phase_completion (publish_engine { st with store := (map_task_rows (update_session_completed st.store session.id SessionStatus.completed 0 now) task.id
      (task_status_row_update TaskStatus.completed now)) }
      EventType.status_changed "task" task.id ("Task completed: " ++ task.name)) task now).store rid task now)],
      task_dependencies := (check_phase_completion (publish_engine { st with store := (map_task_rows (update_session_completed st.store session.id SessionStatus.completed 0 now) task.id
      (task_status_row_update TaskStatus.completed now)) }
      EventType.status_changed "task" task.id ("Task completed: " ++ task.name)) task now).store.task_dependencies ++
        [{ task_id := rid, depends_on_id := task.id }],
      events := (check_phase_completion (publish_engine { st with store := (map_task_rows (update_session_completed st.store session.id SessionStatus.completed 0 now) task.id
      (task_status_row_update TaskStatus.completed now)) }
      EventType.status_changed "task" task.id ("Task completed: " ++ task.name)) task now).store.events ++ [review_event_row (check_phase_completion (publish_engine { st with store := (map_task_rows (update_session_completed st.store session.id SessionStatus.completed 0 now) task.id
      (task_status_row_update TaskStatus.completed now)) }
      EventType.status_changed "task" task.id ("Task completed: " ++ task.name)) task now).store rid task now],
      next_event_id := (check_phase_completion (publish_engine { st with store := (map_task_rows (update_session_completed st.store session.id SessionStatus.completed 0 now) task.id
      (task_status_row_update TaskStatus.completed now)) }
      EventType.status_changed "task" task.id ("Task completed: " ++ task.name)) task now).store.next_event_id + 1 } sid task
    (get_files_changed (check_phase_completion (publish_engine { st with store := (map_task_rows (update_session_completed st.store session.id SessionStatus.completed 0 now) task.id
      (task_status_row_update TaskStatus.completed now)) }
      EventType.status_changed "task" task.id ("Task completed: " ++ task.name)) task now).store task) "security-relevant code detected" now hfs3
  have hseqs : (get_tasks_by_phase (check_phase_completion (publish_engine { st with store := (map_task_rows (update_session_completed st.store session.id SessionStatus.completed 0 now) task.id
      (task_status_row_update TaskStatus.completed now)) }
      EventType.status_changed "task" task.id ("Task completed: " ++ task.name)) task now).store task.phase_id).map (fun t => t.sequence) =
      (get_tasks_by_phase st.store task.phase_id).map (fun t => t.sequence) := by
    have h1 : get_tasks_by_phase (check_phase_completion (publish_engine { st with store := (map_task_rows (update_session_completed st.store session.id SessionStatus.completed 0 now) task.id
      (task_status_row_update TaskStatus.completed now)) }
      EventType.status_changed "task" task.id ("Task completed: " ++ task.name)) task now).store task.phase_id =
        get_tasks_by_phase (map_task_rows (update_session_completed st.store session.id SessionStatus.completed 0 now) task.id
      (task_status_row_update TaskStatus.completed now)) task.phase_id :=
      get_tasks_by_phase_congr _ _ _
        (by rw [check_phase_completion_store_tasks]; rfl)
    rw [h1, phase_seqs_map_rows (update_session_completed st.store session.id SessionStatus.completed 0 now) task.id
      (task_status_row_update TaskStatus.completed now) (fun t => rfl)
      (fun t => rfl) task.phase_id]
    exact congrArg (List.map (fun t => t.sequence)) (get_tasks_by_phase_congr _ _ _ rfl)
  have hrseq : (review_task_row (check_phase_completion (publish_engine { st with store := (map_task_rows (update_session_completed st.store session.id SessionStatus.completed 0 now) task.id
      (task_status_row_update TaskStatus.completed now)) }
      EventType.status_changed "task" task.id ("Task completed: " ++ task.name)) task now).store rid task now).sequence = pymax ((get_tasks_by_phase st.store task.phase_id).map
            (fun t => t.sequence)) 0 + 1 := by
    show pymax ((get_tasks_by_phase (check_phase_completion (publish_engine { st with store := (map_task_rows (update_session_completed st.store session.id SessionStatus.completed 0 now) task.id
      (task_status_row_update TaskStatus.completed now)) }
      EventType.status_changed "task" task.id ("Task completed: " ++ task.name)) task now).store task.phase_id).map
      (fun t => t.sequence)) 0 + 1 = _
    rw [hseqs]
  have hsrmax : pymax ((get_tasks_by_phase { (check_phase_completion (publish_engine { st with store := (map_task_rows (update_session_completed st.store session.id SessionStatus.completed 0 now) task.id
      (task_status_row_update TaskStatus.completed now)) }
      EventType.status_changed "task" task.id ("Task completed: " ++ task.name)) task now).store with
      tasks := (check_phase_completion (publish_engine { st with store := (map_task_rows (update_session_completed st.store session.id SessionStatus.completed 0 now) task.id
      (task_status_row_update TaskStatus.completed now)) }
      EventType.status_changed "task" task.id ("Task completed: " ++ task.name)) task now).store.tasks ++ [(review_task_row (check_phase_completion (publish_engine { st with store := (map_task_rows (update_session_completed st.store session.id SessionStatus.completed 0 now) task.id
      (task_status_row_update TaskStatus.completed now)) }
      EventType.status_changed "task" task.id ("Task completed: " ++ task.name)) task now).store rid task now)],
      task_dependencies := (check_phase_completion (publish_engine { st with store := (map_task_rows (update_session_completed st.store session.id SessionStatus.completed 0 now) task.id
      (task_status_row_update TaskStatus.completed now)) }
      EventType.status_changed "task" task.id ("Task completed: " ++ task.name)) task now).store.task_dependencies ++
        [{ task_id := rid, depends_on_id := task.id }],
      events := (check_phase_completion (publish_engine { st with store := (map_task_rows (update_session_completed st.store session.id SessionStatus.completed 0 now) task.id
      (task_status_row_update TaskStatus.completed now)) }
      EventType.status_changed "task" task.id ("Task completed: " ++ task.name)) task now).store.events ++ [review_event_row (check_phase_completion (publish_engine { st with store := (map_task_rows (update_session_completed st.store session.id SessionStatus.completed 0 now) task.id
      (task_status_row_update TaskStatus.completed now)) }
      EventType.status_changed "task" task.id ("Task completed: " ++ task.name)) task now).store rid task now],
      next_event_id := (check_phase_completion (publish_engine { st with store := (map_task_rows (update_session_completed st.store session.id SessionStatus.completed 0 now) task.id
      (task_status_row_update TaskStatus.completed now)) }
      EventType.status_changed "task" task.id ("Task completed: " ++ task.name)) task now).store.next_event_id + 1 } task.phase_id).map
      (fun t => t.sequence)) 0 = pymax ((get_tasks_by_phase st.store task.phase_id).map
            (fun t => t.sequence)) 0 + 1 := by
    have hb : get_tasks_by_phase { (check_phase_completion (publish_engine { st with store := (map_task_rows (update_session_completed st.store session.id SessionStatus.completed 0 now) task.id
      (task_status_row_update TaskStatus.completed now)) }
      EventType.status_changed "task" task.id ("Task completed: " ++ task.name)) task now).store with
      tasks := (check_phase_completion (publish_engine { st with store := (map_task_rows (update_session_completed st.store session.id SessionStatus.completed 0 now) task.id
      (task_status_row_update TaskStatus.completed now)) }
      EventType.status_changed "task" task.id ("Task completed: " ++ task.name)) task now).store.tasks ++ [(review_task_row (check_phase_completion (publish_engine { st with store := (map_task_rows (update_session_completed st.store session.id SessionStatus.completed 0 now) task.id
      (task_status_row_update TaskStatus.completed now)) }
      EventType.status_changed "task" task.id ("Task completed: " ++ task.name)) task now).store rid task now)],
      task_dependencies := (check_phase_completion (publish_engine { st with store := (map_task_rows (update_session_completed st.store session.id SessionStatus.completed 0 now) task.id
      (task_status_row_update TaskStatus.completed now)) }
      EventType.status_changed "task" task.id ("Task completed: " ++ task.name)) task now).store.task_dependencies ++
        [{ task_id := rid, depends_on_id := task.id }],
      events := (check_phase_completion (publish_engine { st with store := (map_task_rows (update_session_completed st.store session.id SessionStatus.completed 0 now) task.id
      (task_status_row_update TaskStatus.completed now)) }
      EventType.status_changed "task" task.id ("Task completed: " ++ task.name)) task now).store.events ++ [review_event_row (check_phase_completion (publish_engine { st with store := (map_task_rows (update_session_completed st.store session.id SessionStatus.completed 0 now) task.id
      (task_status_row_update TaskStatus.completed now)) }
      EventType.status_changed "task" task.id ("Task completed: " ++ task.name)) task now).store rid task now],
      next_event_id := (check_phase_completion (publish_engine { st with store := (map_task_rows (update_session_completed st.store session.id SessionStatus.completed 0 now) task.id
      (task_status_row_update TaskStatus.completed now)) }
      EventType.status_changed "task" task.id ("Task completed: " ++ task.name)) task now).store.next_event_id + 1 } task.phase_id =
        get_tasks_by_phase { (check_phase_completion (publish_engine { st with store := (map_task_rows (update_session_completed st.store session.id SessionStatus.completed 0 now) task.id
      (task_status_row_update TaskStatus.completed now)) }
      EventType.status_changed "task" task.id ("Task completed: " ++ task.name)) task now).store with
          tasks := (check_phase_completion (publish_engine { st with store := (map_task_rows (update_session_completed st.store session.id SessionStatus.completed 0 now) task.id
      (task_status_row_update TaskStatus.completed now)) }
      EventType.status_changed "task" task.id ("Task completed: " ++ task.name)) task now).store.tasks ++ [(review_task_row (check_phase_completion (publish_engine { st with store := (map_task_rows (update_session_completed st.store session.id SessionStatus.completed 0 now) task.id
      (task_status_row_update TaskStatus.completed now)) }
      EventType.status_changed "task" task.id ("Task completed: " ++ task.name)) task now).store rid task now)] } task.phase_id :=
      get_tasks_by_phase_congr _ _ _ rfl
    rw [hb]
    refine pymax_eq_of 0 ?_ ?_
    · exact (phase_seqs_append_mem (check_phase_completion (publish_engine { st with store := (map_task_rows (update_session_completed st.store session.id SessionStatus.completed 0 now) task.id
      (task_status_row_update TaskStatus.completed now)) }
      EventType.status_changed "task" task.id ("Task completed: " ++ task.name)) task now).store (review_task_row (check_phase_completion (publish_engine { st with store := (map_task_rows (update_session_completed st.store session.id SessionStatus.completed 0 now) task.id
      (task_status_row_update TaskStatus.completed now)) }
      EventType.status_changed "task" task.id ("Task completed: " ++ task.name)) task now).store rid task now) task.phase_id rfl _).mpr
        (Or.inr hrseq.symm)
    · intro y hy
      rcases (phase_seqs_append_mem (check_phase_completion (publish_engine { st with store := (map_task_rows (update_session_completed st.store session.id SessionStatus.completed 0 now) task.id
      (task_status_row_update TaskStatus.completed now)) }
      EventType.status_changed "task" task.id ("Task completed: " ++ task.name)) task now).store (review_task_row (check_phase_completion (publish_engine { st with store := (map_task_rows (update_session_completed st.store session.id SessionStatus.completed 0 now) task.id
      (task_status_row_update TaskStatus.completed now)) }
      EventType.status_changed "task" task.id ("Task completed: " ++ task.name)) task now).store rid task now) task.phase_id rfl y).mp hy with
        h | h
      · rw [hseqs] at h
        have := le_pymax 0 h
        omega
      · rw [h, hrseq]
  have hsrseq : (security_review_task_row { (check_phase_completion (publish_engine { st with store := (map_task_rows (update_session_completed st.store session.id SessionStatus.completed 0 now) task.id
      (task_status_row_update TaskStatus.completed now)) }
      EventType.status_changed "task" task.id ("Task completed: " ++ task.name)) task now).store with
      tasks := (check_phase_completion (publish_engine { st with store := (map_task_rows (update_session_completed st.store session.id SessionStatus.completed 0 now) task.id
      (task_status_row_update TaskStatus.completed now)) }
      EventType.status_changed "task" task.id ("Task completed: " ++ task.name)) task now).store.tasks ++ [(review_task_row (check_phase_completion (publish_engine { st with store := (map_task_rows (update_session_completed st.store session.id SessionStatus.completed 0 now) task.id
      (task_status_row_update TaskStatus.completed now)) }
      EventType.status_changed "task" task.id ("Task completed: " ++ task.name)) task now).store rid task now)],
      task_dependencies := (check_phase_completion (publish_engine { st with store := (map_task_rows (update_session_completed st.store session.id SessionStatus.completed 0 now) task.id
      (task_status_row_update TaskStatus.completed now)) }
      EventType.status_changed "task" task.id ("Task completed: " ++ task.name)) task now).store.task_dependencies ++
        [{ task_id := rid, depends_on_id := task.id }],
      events := (check_phase_completion (publish_engine { st with store := (map_task_rows (update_session_completed st.store session.id SessionStatus.completed 0 now) task.id
      (task_status_row_update TaskStatus.completed now)) }
      EventType.status_changed "task" task.id ("Task completed: " ++ task.name)) task now).store.events ++ [review_event_row (check_phase_completion (publish_engine { st with store := (map_task_rows (update_session_completed st.store session.id SessionStatus.completed 0 now) task.id
      (task_status_row_update TaskStatus.completed now)) }
      EventType.status_changed "task" task.id ("Task completed: " ++ task.name)) task now).store rid task now],
      next_event_id := (check_phase_completion (publish_engine { st with store := (map_task_rows (update_session_completed st.store session.id SessionStatus.completed 0 now) task.id
      (task_status_row_update TaskStatus.completed now)) }
      EventType.status_changed "task" task.id ("Task completed: " ++ task.name)) task now).store.next_event_id + 1 } sid task
      "security-relevant code detected" now).sequence = pymax ((get_tasks_by_phase st.store task.phase_id).map
            (fun t => t.sequence)) 0 + 2 := by
    show pymax ((get_tasks_by_phase { (check_phase_completion (publish_engine { st with store := (map_task_rows (update_session_completed st.store session.id SessionStatus.completed 0 now) task.id
      (task_status_row_update TaskStatus.completed now)) }
      EventType.status_changed "task" task.id ("Task completed: " ++ task.name)) task now).store with
      tasks := (check_phase_completion (publish_engine { st with store := (map_task_rows (update_session_completed st.store session.id SessionStatus.completed 0 now) task.id
      (task_status_row_update TaskStatus.completed now)) }
      EventType.status_changed "task" task.id ("Task completed: " ++ task.name)) task now).store.tasks ++ [(review_task_row (check_phase_completion (publish_engine { st with store := (map_task_rows (update_session_completed st.store session.id SessionStatus.completed 0 now) task.id
      (task_status_row_update TaskStatus.completed now)) }
      EventType.status_changed "task" task.id ("Task completed: " ++ task.name)) task now).store rid task now)],
      task_dependencies := (check_phase_completion (publish_engine { st with store := (map_task_rows (update_session_completed st.store session.id SessionStatus.completed 0 now) task.id
      (task_status_row_update TaskStatus.completed now)) }
      EventType.status_changed "task" task.id ("Task completed: " ++ task.name)) task now).store.task_dependencies ++
        [{ task_id := rid, depends_on_id := task.id }],
      events := (check_phase_completion (publish_engine { st with store := (map_task_rows (update_session_completed st.store session.id SessionStatus.completed 0 now) task.id
      (task_status_row_update TaskStatus.completed now)) }
      EventType.status_changed "task" task.id ("Task completed: " ++ task.name)) task now).store.events ++ [review_event_row (check_phase_completion (publish_engine { st with store := (map_task_rows (update_session_completed st.store session.id SessionStatus.completed 0 now) task.id
      (task_status_row_update TaskStatus.completed now)) }
      EventType.status_changed "task" task.id ("Task completed: " ++ task.name)) task now).store rid task now],
      next_event_id := (check_phase_completion (publish_engine { st with store := (map_task_rows (update_session_completed st.store session.id SessionStatus.completed 0 now) task.id
      (task_status_row_update TaskStatus.completed now)) }
      EventType.status_changed "task" task.id ("Task completed: " ++ task.name)) task now).store.next_event_id + 1 } task.phase_id).map
      (fun t => t.sequence)) 0 + 1 = _
    rw [hsrmax]
    omega
  cases hsec : is_security_relevant task with
  | true =>
    apply Exists.intro
    refine ⟨?_, ?_, ?_⟩
    · unfold handle_completion
      try dsimp only
      rw [hupd1]
      simp only [except_ok_bind]
      try dsimp only
      rw [if_pos hcond]
      try dsimp only
      rw [hsched1]
      simp only [except_ok_bind]
      try dsimp only
      rw [if_pos hsec]
      try dsimp only
      rw [hsched2]
      simp only [except_ok_bind]
      try dsimp only
      try rfl
    · intro _
      refine ⟨(review_task_row (check_phase_completion (publish_engine { st with store := (map_task_rows (update_session_completed st.store session.id SessionStatus.completed 0 now) task.id
      (task_status_row_update TaskStatus.completed now)) }
      EventType.status_changed "task" task.id ("Task completed: " ++ task.name)) task now).store rid task now), (security_review_task_row { (check_phase_completion (publish_engine { st with store := (map_task_rows (update_session_completed st.store session.id SessionStatus.completed 0 now) task.id
      (task_status_row_update TaskStatus.completed now)) }
      EventType.status_changed "task" task.id ("Task completed: " ++ task.name)) task now).store with
      tasks := (check_phase_completion (publish_engine { st with store := (map_task_rows (update_session_completed st.store session.id SessionStatus.completed 0 now) task.id
      (task_status_row_update TaskStatus.completed now)) }
      EventType.status_changed "task" task.id ("Task completed: " ++ task.name)) task now).store.tasks ++ [(review_task_row (check_phase_completion (publish_engine { st with store := (map_task_rows (update_session_completed st.store session.id SessionStatus.completed 0 now) task.id
      (task_status_row_update TaskStatus.completed now)) }
      EventType.status_changed "task" task.id ("Task completed: " ++ task.name)) task now).store rid task now)],
      task_dependencies := (check_phase_completion (publish_engine { st with store := (map_task_rows (update_session_completed st.store session.id SessionStatus.completed 0 now) task.id
      (task_status_row_update TaskStatus.completed now)) }
      EventType.status_changed "task" task.id ("Task completed: " ++ task.name)) task now).store.task_dependencies ++
        [{ task_id := rid, depends_on_id := task.id }],
      events := (check_phase_completion (publish_engine { st with store := (map_task_rows (update_session_completed st.store session.id SessionStatus.completed 0 now) task.id
      (task_status_row_update TaskStatus.completed now)) }
      EventType.status_changed "task" task.id ("Task completed: " ++ task.name)) task now).store.events ++ [review_event_row (check_phase_completion (publish_engine { st with store := (map_task_rows (update_session_completed st.store session.id SessionStatus.completed 0 now) task.id
      (task_status_row_update TaskStatus.completed now)) }
      EventType.status_changed "task" task.id ("Task completed: " ++ task.name)) task now).store rid task now],
      next_event_id := (check_phase_completion (publish_engine { st with store := (map_task_rows (update_session_completed st.store session.id SessionStatus.completed 0 now) task.id
      (task_status_row_update TaskStatus.completed now)) }
      EventType.status_changed "task" task.id ("Task completed: " ++ task.name)) task now).store.next_event_id + 1 } sid task
      "security-relevant code detected" now), review_event_row (check_phase_completion (publish_engine { st with store := (map_task_rows (update_session_completed st.store session.id SessionStatus.completed 0 now) task.id
      (task_status_row_update TaskStatus.completed now)) }
      EventType.status_changed "task" task.id ("Task completed: " ++ task.name)) task now).store rid task now,
        security_event_row { (check_phase_completion (publish_engine { st with store := (map_task_rows (update_session_completed st.store session.id SessionStatus.completed 0 now) task.id
      (task_status_row_update TaskStatus.completed now)) }
      EventType.status_changed "task" task.id ("Task completed: " ++ task.name)) task now).store with
      tasks := (check_phase_completion (publish_engine { st with store := (map_task_rows (update_session_completed st.store session.id SessionStatus.completed 0 now) task.id
      (task_status_row_update TaskStatus.completed now)) }
      EventType.status_changed "task" task.id ("Task completed: " ++ task.name)) task now).store.tasks ++ [(review_task_row (check_phase_completion (publish_engine { st with store := (map_task_rows (update_session_completed st.store session.id SessionStatus.completed 0 now) task.id
      (task_status_row_update TaskStatus.completed now)) }
      EventType.status_changed "task" task.id ("Task completed: " ++ task.name)) task now).store rid task now)],
      task_dependencies := (check_phase_completion (publish_engine { st with store := (map_task_rows (update_session_completed st.store session.id SessionStatus.completed 0 now) task.id
      (task_status_row_update TaskStatus.completed now)) }
      EventType.status_changed "task" task.id ("Task completed: " ++ task.name)) task now).store.task_dependencies ++
        [{ task_id := rid, depends_on_id := task.id }],
      events := (check_phase_completion (publish_engine { st with store := (map_task_rows (update_session_completed st.store session.id SessionStatus.completed 0 now) task.id
      (task_status_row_update TaskStatus.completed now)) }
      EventType.status_changed "task" task.id ("Task completed: " ++ task.name)) task now).store.events ++ [review_event_row (check_phase_completion (publish_engine { st with store := (map_task_rows (update_session_completed st.store session.id SessionStatus.completed 0 now) task.id
      (task_status_row_update TaskStatus.completed now)) }
      EventType.status_changed "task" task.id ("Task completed: " ++ task.name)) task now).store rid task now],
      next_event_id := (check_phase_completion (publish_engine { st with store := (map_task_rows (update_session_completed st.store session.id SessionStatus.completed 0 now) task.id
      (task_status_row_update TaskStatus.completed now)) }
      EventType.status_changed "task" task.id ("Task completed: " ++ task.name)) task now).store.next_event_id + 1 } sid task now,
        ?_, rfl, rfl, rfl, rfl, hrseq, rfl, rfl, rfl, rfl, hsrseq, ?_, ?_, ?_,
        rfl, rfl, rfl, rfl⟩
      · show ((check_phase_completion (publish_engine { st with store := (map_task_rows (update_session_completed st.store session.id SessionStatus.completed 0 now) task.id
      (task_status_row_update TaskStatus.completed now)) }
      EventType.status_changed "task" task.id ("Task completed: " ++ task.name)) task now).store.tasks ++ [(review_task_row (check_phase_completion (publish_engine { st with store := (map_task_rows (update_session_completed st.store session.id SessionStatus.completed 0 now) task.id
      (task_status_row_update TaskStatus.completed now)) }
      EventType.status_changed "task" task.id ("Task completed: " ++ task.name)) task now).store rid task now)]) ++ [(security_review_task_row { (check_phase_completion (publish_engine { st with store := (map_task_rows (update_session_completed st.store session.id SessionStatus.completed 0 now) task.id
      (task_status_row_update TaskStatus.completed now)) }
      EventType.status_changed "task" task.id ("Task completed: " ++ task.name)) task now).store with
      tasks := (check_phase_completion (publish_engine { st with store := (map_task_rows (update_session_completed st.store session.id SessionStatus.completed 0 now) task.id
      (task_status_row_update TaskStatus.completed now)) }
      EventType.status_changed "task" task.id ("Task completed: " ++ task.name)) task now).store.tasks ++ [(review_task_row (check_phase_completion (publish_engine { st with store := (map_task_rows (update_session_completed st.store session.id SessionStatus.completed 0 now) task.id
      (task_status_row_update TaskStatus.completed now)) }
      EventType.status_changed "task" task.id ("Task completed: " ++ task.name)) task now).store rid task now)],
      task_dependencies := (check_phase_completion (publish_engine { st with store := (map_task_rows (update_session_completed st.store session.id SessionStatus.completed 0 now) task.id
      (task_status_row_update TaskStatus.completed now)) }
      EventType.status_changed "task" task.id ("Task completed: " ++ task.name)) task now).store.task_dependencies ++
        [{ task_id := rid, depends_on_id := task.id }],
      events := (check_phase_completion (publish_engine { st with store := (map_task_rows (update_session_completed st.store session.id SessionStatus.completed 0 now) task.id
      (task_status_row_update TaskStatus.completed now)) }
      EventType.status_changed "task" task.id ("Task completed: " ++ task.name)) task now).store.events ++ [review_event_row (check_phase_completion (publish_engine { st with store := (map_task_rows (update_session_completed st.store session.id SessionStatus.completed 0 now) task.id
      (task_status_row_update TaskStatus.completed now)) }
      EventType.status_changed "task" task.id ("Task completed: " ++ task.name)) task now).store rid task now],
      next_event_id := (check_phase_completion (publish_engine { st with store := (map_task_rows (update_session_completed st.store session.id SessionStatus.completed 0 now) task.id
      (task_status_row_update TaskStatus.completed now)) }
      EventType.status_changed "task" task.id ("Task completed: " ++ task.name)) task now).store.next_event_id + 1 } sid task
      "security-relevant code detected" now)] = _
        rw [hcpcT, List.append_assoc]
        rfl
      · show _ ∈ ((check_phase_completion (publish_engine { st with store := (map_task_rows (update_session_completed st.store session.id SessionStatus.completed 0 now) task.id
      (task_status_row_update TaskStatus.completed now)) }
      EventType.status_changed "task" task.id ("Task completed: " ++ task.name)) task now).store.task_dependencies ++
          [{ task_id := rid, depends_on_id := task.id }]) ++
          [{ task_id := sid, depends_on_id := task.id }]
        simp
      · show _ ∈ ((check_phase_completion (publish_engine { st with store := (map_task_rows (update_session_completed st.store session.id SessionStatus.completed 0 now) task.id
      (task_status_row_update TaskStatus.completed now)) }
      EventType.status_changed "task" task.id ("Task completed: " ++ task.name)) task now).store.task_dependencies ++
          [{ task_id := rid, depends_on_id := task.id }]) ++
          [{ task_id := sid, depends_on_id := task.id }]
        simp
      · show ((check_phase_completion (publish_engine { st with store := (map_task_rows (update_session_completed st.store session.id SessionStatus.completed 0 now) task.id
      (task_status_row_update TaskStatus.completed now)) }
      EventType.status_changed "task" task.id ("Task completed: " ++ task.name)) task now).store.events ++ [review_event_row (check_phase_completion (publish_engine { st with store := (map_task_rows (update_session_completed st.store session.id SessionStatus.completed 0 now) task.id
      (task_status_row_update TaskStatus.completed now)) }
      EventType.status_changed "task" task.id ("Task completed: " ++ task.name)) task now).store rid task now]) ++
          [security_event_row { (check_phase_completion (publish_engine { st with store := (map_task_rows (update_session_completed st.store session.id SessionStatus.completed 0 now) task.id
      (task_status_row_update TaskStatus.completed now)) }
      EventType.status_changed "task" task.id ("Task completed: " ++ task.name)) task now).store with
      tasks := (check_phase_completion (publish_engine { st with store := (map_task_rows (update_session_completed st.store session.id SessionStatus.completed 0 now) task.id
      (task_status_row_update TaskStatus.completed now)) }
      EventType.status_changed "task" task.id ("Task completed: " ++ task.name)) task now).store.tasks ++ [(review_task_row (check_phase_completion (publish_engine { st with store := (map_task_rows (update_session_completed st.store session.id SessionStatus.completed 0 now) task.id
      (task_status_row_update TaskStatus.completed now)) }
      EventType.status_changed "task" task.id ("Task completed: " ++ task.name)) task now).store rid task now)],
      task_dependencies := (check_phase_completion (publish_engine { st with store := (map_task_rows (update_session_completed st.store session.id SessionStatus.completed 0 now) task.id
      (task_status_row_update TaskStatus.completed now)) }
      EventType.status_changed "task" task.id ("Task completed: " ++ task.name)) task now).store.task_dependencies ++
        [{ task_id := rid, depends_on_id := task.id }],
      events := (check_phase_completion (publish_engine { st with store := (map_task_rows (update_session_completed st.store session.id SessionStatus.completed 0 now) task.id
      (task_status_row_update TaskStatus.completed now)) }
      EventType.status_changed "task" task.id ("Task completed: " ++ task.name)) task now).store.events ++ [review_event_row (check_phase_completion (publish_engine { st with store := (map_task_rows (update_session_completed st.store session.id SessionStatus.completed 0 now) task.id
      (task_status_row_update TaskStatus.completed now)) }
      EventType.status_changed "task" task.id ("Task completed: " ++ task.name)) task now).store rid task now],
      next_event_id := (check_phase_completion (publish_engine { st with store := (map_task_rows (update_session_completed st.store session.id SessionStatus.completed 0 now) task.id
      (task_status_row_update TaskStatus.completed now)) }
      EventType.status_changed "task" task.id ("Task completed: " ++ task.name)) task now).store.next_event_id + 1 } sid task now] = _
        rw [hcpcE, List.append_assoc]
        rfl
    · intro h
      exact Bool.noConfusion h
  | false =>
    apply Exists.intro
    refine ⟨?_, ?_, ?_⟩
    · unfold handle_completion
      try dsimp only
      rw [hupd1]
      simp only [except_ok_bind]
      try dsimp only
      rw [if_pos hcond]
      try dsimp only
      rw [hsched1]
      simp only [except_ok_bind]
      try dsimp only
      rw [if_neg (by simp [hsec])]
      try dsimp only
      try rfl
    · intro h
      exact Bool.noConfusion h
    · intro _
      refine ⟨(review_task_row (check_phase_completion (publish_engine { st with store := (map_task_rows (update_session_completed st.store session.id SessionStatus.completed 0 now) task.id
      (task_status_row_update TaskStatus.completed now)) }
      EventType.status_changed "task" task.id ("Task completed: " ++ task.name)) task now).store rid task now), review_event_row (check_phase_completion (publish_engine { st with store := (map_task_rows (update_session_completed st.store session.id SessionStatus.completed 0 now) task.id
      (task_status_row_update TaskStatus.completed now)) }
      EventType.status_changed "task" task.id ("Task completed: " ++ task.name)) task now).store rid task now,
        ?_, rfl, rfl, rfl, rfl, hrseq, ?_, ?_, rfl, rfl⟩
      · show (check_phase_completion (publish_engine { st with store := (map_task_rows (update_session_completed st.store session.id SessionStatus.completed 0 now) task.id
      (task_status_row_update TaskStatus.completed now)) }
      EventType.status_changed "task" task.id ("Task completed: " ++ task.name)) task now).store.tasks ++ [(review_task_row (check_phase_completion (publish_engine { st with store := (map_task_rows (update_session_completed st.store session.id SessionStatus.completed 0 now) task.id
      (task_status_row_update TaskStatus.completed now)) }
      EventType.status_changed "task" task.id ("Task completed: " ++ task.name)) task now).store rid task now)] = _
        rw [hcpcT]
      · show _ ∈ (check_phase_completion (publish_engine { st with store := (map_task_rows (update_session_completed st.store session.id SessionStatus.completed 0 now) task.id
      (task_status_row_update TaskStatus.completed now)) }
      EventType.status_changed "task" task.id ("Task completed: " ++ task.name)) task now).store.task_dependencies ++
          [{ task_id := rid, depends_on_id := task.id }]
        simp
      · show (check_phase_completion (publish_engine { st with store := (map_task_rows (update_session_completed st.store session.id SessionStatus.completed 0 now) task.id
      (task_status_row_update TaskStatus.completed now)) }
      EventType.status_changed "task" task.id ("Task completed: " ++ task.name)) task now).store.events ++ [review_event_row (check_phase_completion (publish_engine { st with store := (map_task_rows (update_session_completed st.store session.id SessionStatus.completed 0 now) task.id
      (task_status_row_update TaskStatus.completed now)) }
      EventType.status_changed "task" task.id ("Task completed: " ++ task.name)) task now).store rid task now] = _
        rw [hcpcE]

/-- C8 witness: completing the concrete security-relevant coding task
(max phase sequence 1) yields a review task at sequence 2 and a security
review at sequence 3, both queued with dependency edges, and exactly two
`review_scheduled` events. -/
theorem C8_witness :
    engine_c8.store.find_task task_c8.id = some task_c8 ∧
    task_c8.task_type = TaskType.coding ∧
    is_security_relevant task_c8 = true ∧
    pymax ((get_tasks_by_phase engine_c8.store task_c8.phase_id).map
            (fun t => t.sequence)) 0 = 1 ∧
    (∃ st', handle_completion engine_c8 "r1" "r2" task_c8 sess0 5 = Except.ok st' ∧
      ((is_security_relevant task_c8 = true →
        ∃ r sr e1 e2,
          st'.store.tasks = engine_c8.store.tasks.map (fun t =>
              if t.id == task_c8.id then task_status_row_update TaskStatus.completed 5 t
              else t) ++ [r, sr] ∧
          r.id = "r1" ∧ r.phase_id = task_c8.phase_id ∧
          r.task_type = TaskType.review ∧ r.status = TaskStatus.queued ∧
          r.sequence = pymax ((get_tasks_by_phase engine_c8.store task_c8.phase_id).map
            (fun t => t.sequence)) 0 + 1 ∧
          sr.id = "r2" ∧ sr.phase_id = task_c8.phase_id ∧
          sr.task_type = TaskType.security_review ∧ sr.status = TaskStatus.queued ∧
          sr.sequence = pymax ((get_tasks_by_phase engine_c8.store task_c8.phase_id).map
            (fun t => t.sequence)) 0 + 2 ∧
          { task_id := "r1", depends_on_id := task_c8.id } ∈
            st'.store.task_dependencies ∧
          { task_id := "r2", depends_on_id := task_c8.id } ∈
            st'.store.task_dependencies ∧
          st'.store.events = engine_c8.store.events ++ [e1, e2] ∧
          e1.event_type = EventType.review_scheduled ∧ e1.entity_id = "r1" ∧
          e2.event_type = EventType.review_scheduled ∧ e2.entity_id = "r2") ∧
       (is_security_relevant task_c8 = false →
        ∃ r e1,
          st'.store.tasks = engine_c8.store.tasks.map (fun t =>
              if t.id == task_c8.id then task_status_row_update TaskStatus.completed 5 t
              else t) ++ [r] ∧
          r.id = "r1" ∧ r.phase_id = task_c8.phase_id ∧
          r.task_type = TaskType.review ∧ r.status = TaskStatus.queued ∧
          r.sequence = pymax ((get_tasks_by_phase engine_c8.store task_c8.phase_id).map
            (fun t => t.sequence)) 0 + 1 ∧
          { task_id := "r1", depends_on_id := task_c8.id } ∈
            st'.store.task_dependencies ∧
          st'.store.events = engine_c8.store.events ++ [e1] ∧
          e1.event_type = EventType.review_scheduled ∧ e1.entity_id = "r1"))) :=
  ⟨rfl, rfl, by decide, by decide,
   C8_completion_schedules_reviews engine_c8 "r1" "r2" task_c8 sess0 5 rfl rfl
     (by decide) (by decide) (by decide)⟩

/-- C7 counterexample: the concrete spawn takes the session through
`pending, running, running`; the status `starting` never appears in the
observable history, so the session is not observable in `starting` before
`running`. -/
theorem C7_counterexample :
    spawn_status_history store0 "sess-9" task0 "/tmp/p" 3 =
      [some .pending, some .running, some .running] ∧
    ((spawn_status_history store0 "sess-9" task0 "/tmp/p" 3).contains
      (some SessionStatus.starting)) = false := ⟨rfl, rfl⟩

end TC
